import Mathlib

set_option maxRecDepth 10000

/-!
Verification of the Beam Brawlers match simulation core.

The definitions below are a shallow embedding of the TypeScript sources
`src/game/constants.ts`, `src/game/types.ts`, `src/game/logic/fighter.ts`,
`src/game/logic/gameState.ts`, `src/game/logic/moves.ts` and
`src/game/gameReducer.ts`.  JavaScript numbers are modelled as exact
rationals (ℚ), scores as integers (ℤ).  The ambient effects used by the
code (`Date.now()`, `Math.random()`, the random callout id) are threaded
explicitly through an `Env` record, so every function is a pure Lean
function.
-/

namespace BeamBrawlers

/-! ## Constants (src/game/constants.ts) -/

def CANVAS_WIDTH : ℚ := 1024
def BEAM_WIDTH : ℚ := 800
def BEAM_LEFT : ℚ := (CANVAS_WIDTH - BEAM_WIDTH) / 2
def BEAM_RIGHT : ℚ := BEAM_LEFT + BEAM_WIDTH
def BEAM_EDGE_ZONE : ℚ := BEAM_WIDTH * 0.1
def FIGHTER_WIDTH : ℚ := 50
def FIGHTER_SPEED : ℚ := 200
def GRAPPLE_RANGE : ℚ := 70
def JUMP_VELOCITY : ℚ := -400
def GRAVITY : ℚ := 1200
def JUMP_STAMINA_COST : ℚ := 15
def JUMP_BALANCE_COST : ℚ := 10
def STOMP_DAMAGE : ℚ := 20
def STOMP_STUN_DURATION : ℚ := 0.8
def STOMP_POINTS : ℤ := 175
def JUMP_OVER_BONUS : ℤ := 50
def MIN_JUMP_HEIGHT_FOR_OVER : ℚ := 40
def MAX_BALANCE : ℚ := 100
def MAX_STAMINA : ℚ := 100
def BALANCE_REGEN_RATE : ℚ := 5
def STAMINA_REGEN_RATE : ℚ := 8
def BALANCE_MOVE_COST : ℚ := 2
def STAMINA_MOVE_COST : ℚ := 3
def BALANCE_GRAPPLE_DRAIN : ℚ := 5
def LOW_STAMINA_THRESHOLD : ℚ := 20
def PIN_DURATION : ℚ := 3
def MIN_BALANCE_FOR_PIN : ℚ := 20
def MATCH_DURATION : ℚ := 90
def COUNTDOWN_DURATION : ℚ := 3
def CALLOUT_DURATION : ℚ := 1.5

/-! ## Types (src/game/types.ts) -/

inductive FighterState where
  | Idle | Moving | Jumping | GrappleEngaged | ExecutingMove | Stunned
  | Falling | Pinned | Pinning | Recovering
  deriving DecidableEq

inductive MoveType where
  | pancake | scissors | guillotine
  deriving DecidableEq

inductive FacingDirection where
  | left | right
  deriving DecidableEq

inductive FighterId where
  | player | opponent
  deriving DecidableEq

def FighterId.other : FighterId → FighterId
  | .player => .opponent
  | .opponent => .player

inductive Winner where
  | player | opponent | draw
  deriving DecidableEq

def Winner.ofId : FighterId → Winner
  | .player => .player
  | .opponent => .opponent

inductive GameScene where
  | Title | HowToPlay | Countdown | Playing | Paused | GameOver
  deriving DecidableEq

inductive GameEndReason where
  | pin | timeout | surrender
  deriving DecidableEq

structure Fighter where
  id : FighterId
  name : String
  x : ℚ
  y : ℚ
  velocityY : ℚ
  facing : FacingDirection
  state : FighterState
  balance : ℚ
  stamina : ℚ
  score : ℤ
  stateTimer : ℚ
  currentMove : Option MoveType
  comboCount : ℕ
  lastMoveTime : ℚ
  isDefending : Bool
  hasJumpedOver : Bool
  deriving DecidableEq

structure GameResult where
  winner : Winner
  reason : GameEndReason
  playerScore : ℤ
  opponentScore : ℤ
  matchDuration : ℚ
  deriving DecidableEq

structure Callout where
  id : String
  text : String
  subtext : Option String
  timestamp : ℚ
  deriving DecidableEq

structure GameState where
  scene : GameScene
  matchTimer : ℚ
  countdownTimer : ℚ
  isPaused : Bool
  player : Fighter
  opponent : Fighter
  isGrappling : Bool
  grappleInitiator : Option FighterId
  pinProgress : ℚ
  pinningFighter : Option FighterId
  currentCallout : Option Callout
  result : Option GameResult
  deriving DecidableEq

structure InputState where
  moveLeft : Bool
  moveRight : Bool
  balanceUp : Bool
  balanceDown : Bool
  grapple : Bool
  pancake : Bool
  scissors : Bool
  guillotine : Bool
  pin : Bool
  defend : Bool
  deriving DecidableEq

/-- Explicit environment for the ambient effects used by the source:
`now` models `Date.now()` (milliseconds), `roll` models the single
`Math.random()` sample drawn by `handleExecuteMove`, and `calloutId`
models the random id string generated by `createCallout`. -/
structure Env where
  now : ℚ
  roll : ℚ
  calloutId : String
  /-- The two random Zappa song names drawn by `createInitialState`. -/
  playerName : String
  opponentName : String
  deriving DecidableEq

/-- The action vocabulary of the reducer (src/game/gameReducer.ts switch). -/
inductive GameAction where
  | startGame
  | showHowToPlay
  | hideHowToPlay
  | pause
  | resume
  | restart
  | update (deltaTime : ℚ) (input : InputState)
  | attemptGrapple (initiator : FighterId)
  | breakGrappleAct
  | executeMoveAct (fighter : FighterId) (move : MoveType)
  | moveComplete (fighter : FighterId) (success : Bool)
  | attemptPinAct (attacker : FighterId)
  | fighterFell (fighter : FighterId)
  | jump (fighter : FighterId)
  | land (fighter : FighterId) (stompedOpponent : Bool)
  | jumpedOver (fighter : FighterId)
  | resetPositionsAct
  | showCallout (text : String) (subtext : Option String)
  | clearCalloutAct
  | endMatchAct (winner : Winner) (reason : GameEndReason)
  deriving DecidableEq

/-! ## Move configuration (MOVE_REQUIREMENTS / MOVE_TIMINGS / SCORING) -/

structure MoveRequirements where
  minBalance : ℚ
  staminaCost : ℚ
  name : String
  deriving DecidableEq

def MOVE_REQUIREMENTS : MoveType → MoveRequirements
  | .pancake => { minBalance := 30, staminaCost := 25, name := "Pancake" }
  | .scissors => { minBalance := 40, staminaCost := 30, name := "Scissors" }
  | .guillotine => { minBalance := 50, staminaCost := 35, name := "Guillotine" }

/-- Move timing configuration.  In the source only `scissors` carries a
`balanceDrainRate` field; here the field is 0 for the other moves and is
only ever read at `scissors`, matching the source accesses. -/
structure MoveTimings where
  duration : ℚ
  counterWindow : ℚ
  stunDuration : ℚ
  balanceDrainRate : ℚ
  deriving DecidableEq

def MOVE_TIMINGS : MoveType → MoveTimings
  | .pancake => { duration := 0.8, counterWindow := 0.3, stunDuration := 1.0, balanceDrainRate := 0 }
  | .scissors => { duration := 1.2, counterWindow := 1.2, stunDuration := 0.6, balanceDrainRate := 40 }
  | .guillotine => { duration := 1.5, counterWindow := 0.4, stunDuration := 1.2, balanceDrainRate := 0 }

def SCORING_moves : MoveType → ℚ
  | .pancake => 200
  | .scissors => 150
  | .guillotine => 250

def SCORING_balanceThreshold : ℚ := 80
def SCORING_balanceBonus : ℚ := 0.2
def SCORING_edgeZoneBonus : ℚ := 0.15
def SCORING_comboWindow : ℚ := 4
def SCORING_comboBonus : ℚ := 0.1
def SCORING_maxComboBonus : ℚ := 0.3
def SCORING_fallOff : ℤ := -100

/-- JavaScript `Math.round` on exact rationals: round half toward +∞. -/
def jsRound (q : ℚ) : ℤ := ⌊q + 1 / 2⌋

/-! ## Fighter logic (src/game/logic/fighter.ts, the version with jumps) -/

def createFighter (id : FighterId) (x : ℚ) (facing : FacingDirection)
    (name : String) : Fighter :=
  { id := id, name := name, x := x, y := 0, velocityY := 0, facing := facing
    state := .Idle, balance := MAX_BALANCE, stamina := MAX_STAMINA, score := 0
    stateTimer := 0, currentMove := none, comboCount := 0, lastMoveTime := 0
    isDefending := false, hasJumpedOver := false }

def isOnBeam (f : Fighter) : Bool :=
  decide (BEAM_LEFT ≤ f.x - FIGHTER_WIDTH / 2) &&
  decide (f.x + FIGHTER_WIDTH / 2 ≤ BEAM_RIGHT) &&
  decide (f.state ≠ .Falling)

def isNearEdge (f : Fighter) (edgeZone : ℚ) : Bool :=
  decide (f.x - BEAM_LEFT ≤ edgeZone) || decide (BEAM_RIGHT - f.x ≤ edgeZone)

def getFighterDistance (f1 f2 : Fighter) : ℚ := |f1.x - f2.x|

def areInGrappleRange (f1 f2 : Fighter) (range : ℚ) : Bool :=
  if f1.y < 0 ∨ f2.y < 0 then false
  else decide (getFighterDistance f1 f2 ≤ range)

def canAct (f : Fighter) : Bool :=
  decide (f.state = .Idle) || decide (f.state = .Moving) ||
  decide (f.state = .GrappleEngaged)

def canJump (f : Fighter) : Bool :=
  (decide (f.state = .Idle) || decide (f.state = .Moving)) &&
  decide (0 ≤ f.y) && decide (JUMP_STAMINA_COST ≤ f.stamina)

def isInAir (f : Fighter) : Bool :=
  decide (f.y < 0) || decide (f.state = .Jumping)

def canGrapple (f : Fighter) : Bool :=
  (decide (f.state = .Idle) || decide (f.state = .Moving)) && decide (0 ≤ f.y)

def canBePinned (f : Fighter) : Bool :=
  decide (f.state = .Stunned) && isOnBeam f && decide (0 ≤ f.y)

def canAttemptPin (f : Fighter) (minBalance : ℚ) : Bool :=
  (decide (f.state = .Idle) || decide (f.state = .GrappleEngaged)) &&
  decide (minBalance ≤ f.balance) && isOnBeam f

def updateBalance (f : Fighter) (delta : ℚ) : Fighter :=
  { f with balance := max 0 (min MAX_BALANCE (f.balance + delta)) }

def updateStamina (f : Fighter) (delta : ℚ) : Fighter :=
  { f with stamina := max 0 (min MAX_STAMINA (f.stamina + delta)) }

def regenerate (f : Fighter) (deltaTime : ℚ) : Fighter :=
  if f.state ≠ .Idle ∧ f.state ≠ .Moving then f
  else
    let isIdle := f.state = .Idle
    let balanceRegen := if isIdle then BALANCE_REGEN_RATE * deltaTime else 0
    let staminaRegen := STAMINA_REGEN_RATE * deltaTime * (if isIdle then 1 else 0.5)
    { f with balance := min MAX_BALANCE (f.balance + balanceRegen)
             stamina := min MAX_STAMINA (f.stamina + staminaRegen) }

def applyMovementCosts (f : Fighter) (deltaTime : ℚ) : Fighter :=
  let balanceCost := BALANCE_MOVE_COST * deltaTime
  let staminaCost := STAMINA_MOVE_COST * deltaTime
  let staminaMultiplier : ℚ := if f.stamina < LOW_STAMINA_THRESHOLD then 1.5 else 1
  { f with balance := max 0 (f.balance - balanceCost * staminaMultiplier)
           stamina := max 0 (f.stamina - staminaCost) }

def applyGrappleCosts (f : Fighter) (deltaTime : ℚ) : Fighter :=
  { f with balance := max 0 (f.balance - BALANCE_GRAPPLE_DRAIN * deltaTime) }

def moveFighter (f : Fighter) (direction : FacingDirection) (deltaTime : ℚ) :
    Fighter :=
  let speedMultiplier : ℚ := if f.stamina < LOW_STAMINA_THRESHOLD then 0.6 else 1
  let moveAmount := FIGHTER_SPEED * deltaTime * speedMultiplier
  let newX :=
    if direction = .left then max (BEAM_LEFT + FIGHTER_WIDTH / 2) (f.x - moveAmount)
    else min (BEAM_RIGHT - FIGHTER_WIDTH / 2) (f.x + moveAmount)
  { f with x := newX, facing := direction, state := .Moving }

def setIdle (f : Fighter) : Fighter :=
  if f.state = .Moving then { f with state := .Idle } else f

def transitionState (f : Fighter) (newState : FighterState) (duration : ℚ) :
    Fighter :=
  { f with state := newState, stateTimer := duration }

def updateStateTimer (f : Fighter) (deltaTime : ℚ) : Fighter :=
  if f.stateTimer ≤ 0 then f
  else
    let newTimer := max 0 (f.stateTimer - deltaTime)
    if newTimer = 0 then
      let nextState :=
        if f.state = .ExecutingMove ∨ f.state = .Stunned ∨ f.state = .Recovering
        then FighterState.Idle else f.state
      { f with stateTimer := 0, state := nextState
               currentMove := if nextState = .Idle then none else f.currentMove }
    else { f with stateTimer := newTimer }

def awardScore (f : Fighter) (points : ℤ) : Fighter :=
  { f with score := f.score + points }

def updateFacing (f : Fighter) (opponentX : ℚ) : Fighter :=
  { f with facing := if f.x < opponentX then .right else .left }

def startFalling (f : Fighter) : Fighter :=
  { f with state := .Falling, stateTimer := 0 }

def resetAfterFall (f : Fighter) (newX : ℚ) (penalty : ℤ) : Fighter :=
  { f with x := newX, state := .Idle, balance := MAX_BALANCE * 0.7
           stamina := min MAX_STAMINA (f.stamina + 20)
           score := f.score + penalty, currentMove := none, isDefending := false
           y := 0, velocityY := 0, hasJumpedOver := false }

def startJump (f : Fighter) : Fighter :=
  if canJump f then
    { f with state := .Jumping, velocityY := JUMP_VELOCITY
             stamina := f.stamina - JUMP_STAMINA_COST, hasJumpedOver := false }
  else f

def updateJumpPhysics (f : Fighter) (deltaTime : ℚ) : Fighter :=
  if f.state ≠ .Jumping then f
  else
    let newVelocityY := f.velocityY + GRAVITY * deltaTime
    let newY := f.y + newVelocityY * deltaTime
    if 0 ≤ newY then
      { f with y := 0, velocityY := 0, state := .Idle
               balance := max 0 (f.balance - JUMP_BALANCE_COST)
               hasJumpedOver := false }
    else { f with y := newY, velocityY := newVelocityY }

def isHighEnoughToJumpOver (f : Fighter) : Bool :=
  decide (f.y < -MIN_JUMP_HEIGHT_FOR_OVER)

def isAboveFighter (jumper target : Fighter) (threshold : ℚ) : Bool :=
  if 0 ≤ jumper.y then false
  else if threshold < |jumper.x - target.x| then false
  else if target.y < 0 then false
  else true

def markJumpedOver (f : Fighter) : Fighter := { f with hasJumpedOver := true }

def moveInAir (f : Fighter) (direction : FacingDirection) (deltaTime : ℚ) :
    Fighter :=
  if f.state ≠ .Jumping then f
  else
    let airControlMultiplier : ℚ := 0.6
    let moveAmount := FIGHTER_SPEED * deltaTime * airControlMultiplier
    let newX :=
      if direction = .left then max (BEAM_LEFT + FIGHTER_WIDTH / 2) (f.x - moveAmount)
      else min (BEAM_RIGHT - FIGHTER_WIDTH / 2) (f.x + moveAmount)
    { f with x := newX, facing := direction }

/-! ## Game state logic (src/game/logic/gameState.ts) -/

/-- Fighter selection by id (the ternaries on the pinning or acting
fighter id in the source). -/
def getFighter (s : GameState) : FighterId → Fighter
  | .player => s.player
  | .opponent => s.opponent

/-- Initial state.  The source draws two random Zappa song names; the names
are threaded here as explicit parameters. -/
def createInitialState (playerName opponentName : String) : GameState :=
  let beamCenter := (BEAM_LEFT + BEAM_RIGHT) / 2
  { scene := .Title, matchTimer := MATCH_DURATION
    countdownTimer := COUNTDOWN_DURATION, isPaused := false
    player := createFighter .player (beamCenter - 100) .right playerName
    opponent := createFighter .opponent (beamCenter + 100) .left opponentName
    isGrappling := false, grappleInitiator := none
    pinProgress := 0, pinningFighter := none
    currentCallout := none, result := none }

def resetMatch (playerName opponentName : String) (_state : GameState) :
    GameState :=
  { createInitialState playerName opponentName with
      scene := .Countdown, countdownTimer := COUNTDOWN_DURATION }

def transitionScene (s : GameState) (scene : GameScene) : GameState :=
  { s with scene := scene }

def checkTimeout (s : GameState) : Option GameResult :=
  if s.matchTimer ≤ 0 then
    let winner : Winner :=
      if s.opponent.score < s.player.score then .player
      else if s.player.score < s.opponent.score then .opponent
      else .draw
    some { winner := winner, reason := .timeout
           playerScore := s.player.score, opponentScore := s.opponent.score
           matchDuration := MATCH_DURATION - s.matchTimer }
  else none

def checkPinVictory (s : GameState) : Option GameResult :=
  match s.pinningFighter with
  | some pf =>
      if 1 ≤ s.pinProgress then
        some { winner := .ofId pf, reason := .pin
               playerScore := s.player.score, opponentScore := s.opponent.score
               matchDuration := MATCH_DURATION - s.matchTimer }
      else none
  | none => none

/-- The pin preconditions re-checked each tick by `updatePinProgress`. -/
def pinPreconds (s : GameState) : Bool :=
  match s.pinningFighter with
  | none => false
  | some pf =>
      canAttemptPin (getFighter s pf) MIN_BALANCE_FOR_PIN &&
      canBePinned (getFighter s pf.other) &&
      areInGrappleRange (getFighter s pf) (getFighter s pf.other) GRAPPLE_RANGE

def updatePinProgress (s : GameState) (deltaTime : ℚ) : GameState :=
  if s.pinningFighter = none then s
  else if pinPreconds s then
    { s with pinProgress := min 1 (s.pinProgress + deltaTime / PIN_DURATION) }
  else
    { s with pinProgress := 0, pinningFighter := none }

def attemptPin (s : GameState) (attacker : FighterId) : GameState :=
  let attackerFighter := getFighter s attacker
  let defenderFighter := getFighter s attacker.other
  if ¬ canAttemptPin attackerFighter MIN_BALANCE_FOR_PIN then s
  else if ¬ canBePinned defenderFighter then s
  else if ¬ areInGrappleRange attackerFighter defenderFighter GRAPPLE_RANGE then s
  else { s with pinningFighter := some attacker, pinProgress := 0 }

def updateMatchTimer (s : GameState) (deltaTime : ℚ) : GameState :=
  if s.scene ≠ .Playing ∨ s.isPaused then s
  else { s with matchTimer := max 0 (s.matchTimer - deltaTime) }

def updateCountdown (s : GameState) (deltaTime : ℚ) : GameState :=
  if s.scene ≠ .Countdown then s
  else
    let newTimer := s.countdownTimer - deltaTime
    if newTimer ≤ 0 then { s with countdownTimer := 0, scene := .Playing }
    else { s with countdownTimer := newTimer }

/-- The source generates the id from `Date.now()` and `Math.random()`;
both are supplied via `Env` by every caller. -/
def createCallout (id : String) (now : ℚ) (text : String)
    (subtext : Option String) : Callout :=
  { id := id, text := text, subtext := subtext, timestamp := now }

def setCallout (s : GameState) (env : Env) (text : String)
    (subtext : Option String) : GameState :=
  { s with currentCallout := some (createCallout env.calloutId env.now text subtext) }

def clearCallout (s : GameState) : GameState := { s with currentCallout := none }

def endMatch (s : GameState) (winner : Winner) (reason : GameEndReason) :
    GameState :=
  { s with scene := .GameOver, isPaused := false
           result := some { winner := winner, reason := reason
                            playerScore := s.player.score
                            opponentScore := s.opponent.score
                            matchDuration := MATCH_DURATION - s.matchTimer } }

def updateFighters (s : GameState) (player opponent : Fighter) : GameState :=
  { s with player := player, opponent := opponent }

def setGrappling (s : GameState) (isGrappling : Bool)
    (initiator : Option FighterId) : GameState :=
  { s with isGrappling := isGrappling, grappleInitiator := initiator }

def getResetPositions : ℚ × ℚ :=
  let beamCenter := (BEAM_LEFT + BEAM_RIGHT) / 2
  (beamCenter - 100, beamCenter + 100)

def getFallPenalty : ℤ := SCORING_fallOff

/-! ## Move logic (src/game/logic/moves.ts) -/

/-- Failure reasons of `validateMove`; the source uses message strings, one
per early return, modelled here as one constructor per message. -/
inductive MoveFailReason where
  | mustBeGrappling
  | mustBeOnBeam
  | outOfRange
  | needBalance (minBalance : ℚ)
  | needStamina (staminaCost : ℚ)
  | opponentFalling
  deriving DecidableEq

structure MoveValidation where
  canExecute : Bool
  reason : Option MoveFailReason
  deriving DecidableEq

def validateMove (attacker defender : Fighter) (move : MoveType) :
    MoveValidation :=
  let requirements := MOVE_REQUIREMENTS move
  if attacker.state ≠ .GrappleEngaged then
    { canExecute := false, reason := some .mustBeGrappling }
  else if ¬ isOnBeam attacker then
    { canExecute := false, reason := some .mustBeOnBeam }
  else if ¬ areInGrappleRange attacker defender GRAPPLE_RANGE then
    { canExecute := false, reason := some .outOfRange }
  else if attacker.balance < requirements.minBalance then
    { canExecute := false, reason := some (.needBalance requirements.minBalance) }
  else if attacker.stamina < requirements.staminaCost then
    { canExecute := false, reason := some (.needStamina requirements.staminaCost) }
  else if defender.state = .Falling then
    { canExecute := false, reason := some .opponentFalling }
  else { canExecute := true, reason := none }

structure MoveBonuses where
  balance : Bool
  edge : Bool
  combo : ℚ
  deriving DecidableEq

def calculateBonuses (attacker : Fighter) (currentTime : ℚ) :
    MoveBonuses × ℚ :=
  let balanceBonus := decide (SCORING_balanceThreshold ≤ attacker.balance)
  let edgeBonus := isNearEdge attacker BEAM_EDGE_ZONE
  let comboMultiplier : ℚ :=
    if 0 < attacker.lastMoveTime then
      if currentTime - attacker.lastMoveTime ≤ SCORING_comboWindow then
        min ((attacker.comboCount : ℚ) * SCORING_comboBonus) SCORING_maxComboBonus
      else 0
    else 0
  let total := 1 + (if balanceBonus then SCORING_balanceBonus else 0)
      + (if edgeBonus then SCORING_edgeZoneBonus else 0) + comboMultiplier
  ({ balance := balanceBonus, edge := edgeBonus, combo := comboMultiplier }, total)

def calculateMoveScore (move : MoveType) (attacker : Fighter)
    (currentTime : ℚ) : ℤ × MoveBonuses :=
  let basePoints := SCORING_moves move
  let bonuses := calculateBonuses attacker currentTime
  (jsRound (basePoints * bonuses.2), bonuses.1)

structure MoveResult where
  success : Bool
  pointsAwarded : ℤ
  bonuses : MoveBonuses
  defenderStunDuration : ℚ
  attackerRecovery : ℚ
  deriving DecidableEq

def executePancake (attacker _defender : Fighter) (currentTime : ℚ)
    (wasCountered : Bool) : MoveResult :=
  let timing := MOVE_TIMINGS .pancake
  if wasCountered then
    { success := false, pointsAwarded := 0
      bonuses := { balance := false, edge := false, combo := 0 }
      defenderStunDuration := 0, attackerRecovery := 0.3 }
  else
    let scoreResult := calculateMoveScore .pancake attacker currentTime
    { success := true, pointsAwarded := scoreResult.1, bonuses := scoreResult.2
      defenderStunDuration := timing.stunDuration, attackerRecovery := 0.2 }

def executeScissors (attacker _defender : Fighter) (currentTime : ℚ)
    (wasCountered : Bool) (defenderBalanceAfter : ℚ) : MoveResult :=
  let timing := MOVE_TIMINGS .scissors
  if wasCountered then
    { success := false, pointsAwarded := 0
      bonuses := { balance := false, edge := false, combo := 0 }
      defenderStunDuration := 0, attackerRecovery := 0.4 }
  else if defenderBalanceAfter ≤ 0 then
    { success := true, pointsAwarded := jsRound (SCORING_moves .scissors * 0.5)
      bonuses := { balance := false, edge := false, combo := 0 }
      defenderStunDuration := 0, attackerRecovery := 0.3 }
  else
    let scoreResult := calculateMoveScore .scissors attacker currentTime
    { success := true, pointsAwarded := scoreResult.1, bonuses := scoreResult.2
      defenderStunDuration := timing.stunDuration, attackerRecovery := 0.3 }

def executeGuillotine (attacker _defender : Fighter) (currentTime : ℚ)
    (wasCountered : Bool) : MoveResult :=
  let timing := MOVE_TIMINGS .guillotine
  if wasCountered then
    { success := false, pointsAwarded := 0
      bonuses := { balance := false, edge := false, combo := 0 }
      defenderStunDuration := 0, attackerRecovery := 0.5 }
  else
    let scoreResult := calculateMoveScore .guillotine attacker currentTime
    { success := true, pointsAwarded := scoreResult.1, bonuses := scoreResult.2
      defenderStunDuration := timing.stunDuration, attackerRecovery := 0.2 }

def executeMove (move : MoveType) (attacker defender : Fighter)
    (currentTime : ℚ) (wasCountered : Bool)
    (defenderBalanceAfter : Option ℚ) : MoveResult :=
  match move with
  | .pancake => executePancake attacker defender currentTime wasCountered
  | .scissors =>
      executeScissors attacker defender currentTime wasCountered
        (defenderBalanceAfter.getD defender.balance)
  | .guillotine => executeGuillotine attacker defender currentTime wasCountered

def getMoveName (move : MoveType) : String := (MOVE_REQUIREMENTS move).name

/-! ## Game reducer (src/game/gameReducer.ts) -/

/-- The jump-over crossing test of `updateGame`; `preX` is
`newState.player.x`, i.e. the pre-physics x position of the jumper. -/
def crossedOverCheck (preX : ℚ) (p o : Fighter) : Bool :=
  if p.facing = .right then decide (o.x < p.x) && decide (preX ≤ o.x)
  else decide (p.x < o.x) && decide (o.x ≤ preX)

/-- The jump-over condition of `updateGame` (checked for the player only). -/
def jumpOverCond (preX : ℚ) (wasInAir : Bool) (p o : Fighter) : Bool :=
  wasInAir && !p.hasJumpedOver && isHighEnoughToJumpOver p &&
    (crossedOverCheck preX p o ||
      (decide (|p.x - o.x| < FIGHTER_WIDTH) && isHighEnoughToJumpOver p))

/-- The stomp condition of `updateGame`: the jumper was airborne, has
landed this tick, and is above the target. -/
def stompCond (wasInAir : Bool) (jumper target : Fighter) : Bool :=
  wasInAir && !(isInAir jumper) &&
    isAboveFighter { jumper with y := -1 } target FIGHTER_WIDTH

/-- The effect of being stomped on: balance damage plus stun. -/
def stompVictim (f : Fighter) : Fighter :=
  transitionState (updateBalance f (-STOMP_DAMAGE)) .Stunned STOMP_STUN_DURATION

/-- The player-input block of `updateGame`: ground movement with costs and
defense, or reduced-rate air control. -/
def playerInputPhase (p : Fighter) (dt : ℚ) (input : InputState) : Fighter :=
  if canAct p && !(isInAir p) then
    let pm :=
      if input.moveLeft && !input.moveRight then
        applyMovementCosts (moveFighter p .left dt) dt
      else if input.moveRight && !input.moveLeft then
        applyMovementCosts (moveFighter p .right dt) dt
      else if p.state = .Moving then setIdle p
      else p
    { pm with isDefending := input.defend }
  else if isInAir p then
    if input.moveLeft && !input.moveRight then moveInAir p .left dt
    else if input.moveRight && !input.moveLeft then moveInAir p .right dt
    else p
  else p

/-- Regeneration, applied only to grounded fighters. -/
def regenIfGrounded (f : Fighter) (dt : ℚ) : Fighter :=
  if !(isInAir f) then regenerate f dt else f

/-- Continuous grapple balance drain while the match is grappling. -/
def grappleCostIf (isGrappling : Bool) (f : Fighter) (dt : ℚ) : Fighter :=
  if isGrappling then applyGrappleCosts f dt else f

/-- The per-tick fall check: off the beam or out of balance starts a fall. -/
def fallCheck (f : Fighter) : Fighter :=
  if ¬ isOnBeam f ∨ f.balance ≤ 0 then
    if f.state ≠ .Falling then startFalling f else f
  else f

/-- Steps 4-9 of `updateGame`: state timers, jump physics, jump-over and
stomp detection, player input, regeneration, grapple costs, facing and
fall checks.  The source threads `setCallout`/`updateFighters` through the
state incrementally; since those only write `currentCallout`, `player` and
`opponent`, the accumulated callout and final fighters are assembled into
the record once at the end, which yields the same state. -/
def fightersPhase (s1 : GameState) (dt : ℚ) (input : InputState) (env : Env) :
    GameState :=
  let p1 := updateStateTimer s1.player dt
  let o1 := updateStateTimer s1.opponent dt
  let playerWasInAir := isInAir p1
  let opponentWasInAir := isInAir o1
  let p2 := updateJumpPhysics p1 dt
  let o2 := updateJumpPhysics o1 dt
  -- jump-over detection (the source only checks the player here)
  let jumpOverHit := jumpOverCond s1.player.x playerWasInAir p2 o2
  let p3 := if jumpOverHit then awardScore (markJumpedOver p2) JUMP_OVER_BONUS else p2
  let co1 :=
    if jumpOverHit then
      some (createCallout env.calloutId env.now "JUMP OVER!"
        (some ("+" ++ toString JUMP_OVER_BONUS)))
    else s1.currentCallout
  -- stomp detection: player landed on opponent
  let pStomp := stompCond playerWasInAir p3 o2
  let p4 := if pStomp then awardScore p3 STOMP_POINTS else p3
  let o3 := if pStomp then stompVictim o2 else o2
  let co2 :=
    if pStomp then
      some (createCallout env.calloutId env.now "STOMP!"
        (some ("+" ++ toString STOMP_POINTS)))
    else co1
  -- stomp detection: opponent landed on player
  let oStomp := stompCond opponentWasInAir o3 p4
  let o4 := if oStomp then awardScore o3 STOMP_POINTS else o3
  let p5 := if oStomp then stompVictim p4 else p4
  let co3 :=
    if oStomp then
      some (createCallout env.calloutId env.now "STOMP!"
        (some ("AI +" ++ toString STOMP_POINTS)))
    else co2
  -- player input (ground movement + defense, or reduced air control)
  let p6 := playerInputPhase p5 dt input
  -- regeneration (only when grounded)
  let p7 := regenIfGrounded p6 dt
  let o5 := regenIfGrounded o4 dt
  -- grapple costs
  let p8 := grappleCostIf s1.isGrappling p7 dt
  let o6 := grappleCostIf s1.isGrappling o5 dt
  -- facing
  let p9 := updateFacing p8 o6.x
  let o7 := updateFacing o6 p9.x
  -- fall checks (off beam or balance ≤ 0)
  let p10 := fallCheck p9
  let o8 := fallCheck o7
  { s1 with player := p10, opponent := o8, currentCallout := co3 }

/-- Step 11 of `updateGame`: clear a stale callout. -/
def expireCallout (s : GameState) (env : Env) : GameState :=
  match s.currentCallout with
  | none => s
  | some c =>
      if CALLOUT_DURATION < (env.now - c.timestamp) / 1000 then clearCallout s
      else s

/-- Step 10 (+11) of `updateGame`: advance an active pin, end the match on
a completed pin (returning immediately), otherwise expire callouts. -/
def pinPhase (s : GameState) (dt : ℚ) (env : Env) : GameState :=
  if s.pinningFighter.isSome then
    match checkPinVictory (updatePinProgress s dt) with
    | some r => endMatch (updatePinProgress s dt) r.winner .pin
    | none => expireCallout (updatePinProgress s dt) env
  else expireCallout s env

/-- The per-tick update orchestrator (`updateGame` in the source). -/
def updateGame (s : GameState) (dt : ℚ) (input : InputState) (env : Env) :
    GameState :=
  if s.scene = .Countdown then updateCountdown s dt
  else if s.scene ≠ .Playing ∨ s.isPaused then s
  else
    match checkTimeout (updateMatchTimer s dt) with
    | some r => endMatch (updateMatchTimer s dt) r.winner .timeout
    | none => pinPhase (fightersPhase (updateMatchTimer s dt) dt input env) dt env

def handleGrappleAttempt (s : GameState) (initiator : FighterId) : GameState :=
  let attacker := getFighter s initiator
  let defender := getFighter s initiator.other
  if ¬ canGrapple attacker then s
  else if ¬ areInGrappleRange attacker defender GRAPPLE_RANGE then s
  else if defender.state = .Falling then s
  else
    let newAttacker := transitionState attacker .GrappleEngaged 0
    let newDefender :=
      if canAct defender then transitionState defender .GrappleEngaged 0
      else defender
    let newState :=
      if initiator = .player then updateFighters s newAttacker newDefender
      else updateFighters s newDefender newAttacker
    setGrappling newState true (some initiator)

def breakGrapple (s : GameState) : GameState :=
  let player :=
    if s.player.state = .GrappleEngaged then transitionState s.player .Idle 0
    else s.player
  let opponent :=
    if s.opponent.state = .GrappleEngaged then transitionState s.opponent .Idle 0
    else s.opponent
  setGrappling (updateFighters s player opponent) false none

def handleExecuteMove (s : GameState) (fighterId : FighterId)
    (move : MoveType) (env : Env) : GameState :=
  let attacker := getFighter s fighterId
  let defender := getFighter s fighterId.other
  let validation := validateMove attacker defender move
  if ¬ validation.canExecute then s
  else
    let requirements := MOVE_REQUIREMENTS move
    let timing := MOVE_TIMINGS move
    let newAttacker :=
      { transitionState (updateStamina attacker (-requirements.staminaCost))
          .ExecutingMove timing.duration with currentMove := some move }
    -- 40% counter chance if defending: `Math.random() < 0.4`
    let wasCountered := defender.isDefending && decide (env.roll < 0.4)
    let defenderBalanceAfter :=
      if move = .scissors ∧ wasCountered = false then
        max 0 (defender.balance - (MOVE_TIMINGS .scissors).balanceDrainRate)
      else defender.balance
    let result := executeMove move newAttacker defender env.now wasCountered
        (some defenderBalanceAfter)
    let newAttacker2 :=
      if result.success then
        let a1 := awardScore newAttacker result.pointsAwarded
        { a1 with comboCount := a1.comboCount + 1, lastMoveTime := env.now }
      else
        transitionState newAttacker .Recovering result.attackerRecovery
    let newDefender :=
      if result.success then
        let d1 :=
          if 0 < result.defenderStunDuration then
            transitionState defender .Stunned result.defenderStunDuration
          else defender
        if move = .scissors then
          let d' := updateBalance d1 (-(defender.balance - defenderBalanceAfter))
          if d'.balance ≤ 0 then startFalling d' else d'
        else d1
      else defender
    let newState :=
      if fighterId = .player then updateFighters s newAttacker2 newDefender
      else updateFighters s newDefender newAttacker2
    let moveName := (getMoveName move).toUpper
    if result.success then
      let subtext := "+" ++ toString result.pointsAwarded
      let subtext := if result.bonuses.balance then subtext ++ " (Balance Bonus!)" else subtext
      let subtext := if result.bonuses.edge then subtext ++ " (Edge Risk!)" else subtext
      let subtext := if 0 < result.bonuses.combo then subtext ++ " (Combo!)" else subtext
      setCallout newState env (moveName ++ "!") (some subtext)
    else
      setCallout newState env "BLOCKED!" (some (moveName ++ " countered!"))

def handleFighterFell (s : GameState) (fighterId : FighterId) (env : Env) :
    GameState :=
  let positions := getResetPositions
  let penalty := getFallPenalty
  let (player, opponent) :=
    if fighterId = .player then
      (resetAfterFall s.player positions.1 penalty,
       transitionState s.opponent .Idle 0)
    else
      (transitionState s.player .Idle 0,
       resetAfterFall s.opponent positions.2 penalty)
  let newState := setGrappling (updateFighters s player opponent) false none
  let newState := { newState with pinProgress := 0, pinningFighter := none }
  setCallout newState env "FALL!"
    (some (if fighterId = .player then "YOU fell! -100" else "AI fell! -100"))

/-- The source calls `createFighter` without the (required) name argument
here; the missing name is modelled as the empty string. -/
def resetPositions (s : GameState) : GameState :=
  let positions := getResetPositions
  let player := { createFighter .player positions.1 .right "" with
                    score := s.player.score }
  let opponent := { createFighter .opponent positions.2 .left "" with
                      score := s.opponent.score }
  let newState := setGrappling (updateFighters s player opponent) false none
  { newState with pinProgress := 0, pinningFighter := none }

def handleJump (s : GameState) (fighterId : FighterId) : GameState :=
  let fighter := getFighter s fighterId
  if ¬ canJump fighter then s
  else
    let newState := if s.isGrappling then breakGrapple s else s
    let jumpingFighter := startJump fighter
    if fighterId = .player then
      updateFighters newState jumpingFighter newState.opponent
    else
      updateFighters newState newState.player jumpingFighter

def handleLand (s : GameState) (fighterId : FighterId)
    (stompedOpponent : Bool) (env : Env) : GameState :=
  if stompedOpponent then
    let (player, opponent) :=
      if fighterId = .player then
        (awardScore s.player STOMP_POINTS,
         transitionState (updateBalance s.opponent (-STOMP_DAMAGE)) .Stunned
           STOMP_STUN_DURATION)
      else
        (transitionState (updateBalance s.player (-STOMP_DAMAGE)) .Stunned
           STOMP_STUN_DURATION,
         awardScore s.opponent STOMP_POINTS)
    setCallout (updateFighters s player opponent) env "STOMP!"
      (some ("+" ++ toString STOMP_POINTS))
  else updateFighters s s.player s.opponent

def handleJumpedOver (s : GameState) (fighterId : FighterId) (env : Env) :
    GameState :=
  let fighter := awardScore (markJumpedOver (getFighter s fighterId)) JUMP_OVER_BONUS
  let newState :=
    if fighterId = .player then updateFighters s fighter s.opponent
    else updateFighters s s.player fighter
  setCallout newState env "JUMP OVER!" (some ("+" ++ toString JUMP_OVER_BONUS))

/-- The main reducer (`gameReducer` in the source). -/
def gameReducer (s : GameState) (a : GameAction) (env : Env) : GameState :=
  match a with
  | .startGame => resetMatch env.playerName env.opponentName s
  | .showHowToPlay => transitionScene s .HowToPlay
  | .hideHowToPlay => transitionScene s .Title
  | .pause =>
      if s.scene = .Playing then { s with isPaused := true, scene := .Paused }
      else s
  | .resume =>
      if s.scene = .Paused then { s with isPaused := false, scene := .Playing }
      else s
  | .restart => resetMatch env.playerName env.opponentName s
  | .update deltaTime input => updateGame s deltaTime input env
  | .attemptGrapple initiator => handleGrappleAttempt s initiator
  | .breakGrappleAct => breakGrapple s
  | .executeMoveAct fighter move => handleExecuteMove s fighter move env
  | .moveComplete _ _ => s
  | .attemptPinAct attacker => attemptPin s attacker
  | .fighterFell fighter => handleFighterFell s fighter env
  | .jump fighter => handleJump s fighter
  | .land fighter stomped => handleLand s fighter stomped env
  | .jumpedOver fighter => handleJumpedOver s fighter env
  | .resetPositionsAct => resetPositions s
  | .showCallout text subtext => setCallout s env text subtext
  | .clearCalloutAct => clearCallout s
  | .endMatchAct winner reason => endMatch s winner reason

/-! ## Derived notions used by the verified properties -/

/-- One fixed-timestep tick: elapsed time, the sampled input snapshot and
the sampled environment. -/
structure Tick where
  dt : ℚ
  input : InputState
  env : Env
  deriving DecidableEq

def runTicks (s : GameState) (ts : List Tick) : GameState :=
  ts.foldl (fun s t => updateGame s t.dt t.input t.env) s

/-- The state of a tick just before its pin phase (after the match timer
and all fighter updates of that tick). -/
def midTickState (s : GameState) (t : Tick) : GameState :=
  fightersPhase (updateMatchTimer s t.dt) t.dt t.input t.env

/-- Per-tick side conditions of the continuous-pin scenario: the scene is
`Playing` and unpaused, the tick has positive elapsed time that does not
exhaust the match timer, and when the tick reaches its pin phase the pin
by fighter `a` is still active with all preconditions holding. -/
def pinHyps (a : FighterId) : GameState → List Tick → Bool
  | _, [] => true
  | s, t :: ts =>
      decide (s.scene = .Playing) && !s.isPaused && decide (0 < t.dt) &&
      decide (t.dt < s.matchTimer) &&
      decide ((midTickState s t).pinningFighter = some a) &&
      pinPreconds (midTickState s t) &&
      pinHyps a (updateGame s t.dt t.input t.env) ts

/-- The elapsed times complete the pin exactly at the last tick: starting
from progress `p`, every proper prefix stays below full progress and the
final tick reaches it. -/
def sumsTo3 (p : ℚ) : List ℚ → Bool
  | [] => false
  | d :: ds =>
      if 1 ≤ p + d / PIN_DURATION then decide (ds = [])
      else sumsTo3 (p + d / PIN_DURATION) ds

/-- The per-fighter update operations of the core named by the resource-bounds
property: state-timer updates, regeneration, movement and grapple costs,
jump start/landing, stomp damage, direct balance/stamina deltas, and the
reset after a fall. -/
inductive FighterOp where
  | stateTimerUpd (dt : ℚ)
  | regen (dt : ℚ)
  | moveStep (direction : FacingDirection) (dt : ℚ)
  | moveCosts (dt : ℚ)
  | grappleDrain (dt : ℚ)
  | jumpStart
  | jumpStep (dt : ℚ)
  | stompHit
  | balanceDelta (d : ℚ)
  | staminaDelta (d : ℚ)
  | fallReset (newX : ℚ) (penalty : ℤ)
  deriving DecidableEq

def applyFighterOp (f : Fighter) : FighterOp → Fighter
  | .stateTimerUpd dt => updateStateTimer f dt
  | .regen dt => regenerate f dt
  | .moveStep d dt => moveFighter f d dt
  | .moveCosts dt => applyMovementCosts f dt
  | .grappleDrain dt => applyGrappleCosts f dt
  | .jumpStart => startJump f
  | .jumpStep dt => updateJumpPhysics f dt
  | .stompHit =>
      transitionState (updateBalance f (-STOMP_DAMAGE)) .Stunned STOMP_STUN_DURATION
  | .balanceDelta d => updateBalance f d
  | .staminaDelta d => updateStamina f d
  | .fallReset x p => resetAfterFall f x p

/-- Elapsed times are nonnegative (they model real elapsed time). -/
def opOk : FighterOp → Bool
  | .stateTimerUpd dt => decide (0 ≤ dt)
  | .regen dt => decide (0 ≤ dt)
  | .moveStep _ dt => decide (0 ≤ dt)
  | .moveCosts dt => decide (0 ≤ dt)
  | .grappleDrain dt => decide (0 ≤ dt)
  | .jumpStep dt => decide (0 ≤ dt)
  | _ => true

def resourcesOk (f : Fighter) : Prop :=
  0 ≤ f.balance ∧ f.balance ≤ MAX_BALANCE ∧ 0 ≤ f.stamina ∧ f.stamina ≤ MAX_STAMINA

instance (f : Fighter) : Decidable (resourcesOk f) := by
  unfold resourcesOk; infer_instance

/-- The beam interval for fighter centers: beam extents minus half the
fighter width. -/
def inBeamRange (x : ℚ) : Prop :=
  BEAM_LEFT + FIGHTER_WIDTH / 2 ≤ x ∧ x ≤ BEAM_RIGHT - FIGHTER_WIDTH / 2

instance (x : ℚ) : Decidable (inBeamRange x) := by
  unfold inBeamRange; infer_instance

/-- Well-formed actions: an `update` carries a nonnegative elapsed time. -/
def actionWF : GameAction → Prop
  | .update dt _ => 0 ≤ dt
  | _ => True

/-- States reachable from an initial state through the reducer with
well-formed actions. -/
inductive Reachable : GameState → Prop where
  | init (playerName opponentName : String) :
      Reachable (createInitialState playerName opponentName)
  | step (s : GameState) (a : GameAction) (env : Env) :
      Reachable s → actionWF a → Reachable (gameReducer s a env)

/-! ## Concrete evaluation fixtures -/

/-- A grounded idle fighter near beam center. -/
def wIdle : Fighter :=
  { id := .player, name := "A", x := 500, y := 0, velocityY := 0
    facing := .right, state := .Idle, balance := 90, stamina := 90, score := 0
    stateTimer := 0, currentMove := none, comboCount := 0, lastMoveTime := 0
    isDefending := false, hasJumpedOver := false }

/-- A stunned opponent in grapple range of `wIdle`. -/
def wStunned : Fighter :=
  { wIdle with id := .opponent, name := "B", x := 520, facing := .left
               state := .Stunned, stateTimer := 10, balance := 50 }

def wInput : InputState :=
  { moveLeft := false, moveRight := false, balanceUp := false
    balanceDown := false, grapple := false, pancake := false
    scissors := false, guillotine := false, pin := false, defend := false }

def wEnv : Env :=
  { now := 0, roll := 0, calloutId := "c", playerName := "P", opponentName := "O" }

def wEnvHighRoll : Env := { wEnv with roll := 1 / 2 }

/-- A playing state with an active pin by the player on the stunned opponent. -/
def wPinState : GameState :=
  { scene := .Playing, matchTimer := 90, countdownTimer := 0, isPaused := false
    player := wIdle, opponent := wStunned, isGrappling := false
    grappleInitiator := none, pinProgress := 0, pinningFighter := some .player
    currentCallout := none, result := none }

def wTick : Tick := { dt := 3 / 2, input := wInput, env := wEnv }

def wGrapplerA : Fighter := { wIdle with state := .GrappleEngaged }

def wDefender : Fighter :=
  { wStunned with state := .GrappleEngaged, stateTimer := 0, isDefending := true }

/-- A grappling state where the player may execute moves on a defending
opponent. -/
def wMoveState : GameState :=
  { wPinState with player := wGrapplerA, opponent := wDefender
                   pinningFighter := none, isGrappling := true }

/-- As `wMoveState` but the defender is not defending and has low balance,
so a scissors drain drops it to 0. -/
def wScissorsState : GameState :=
  { wMoveState with
      opponent := { wDefender with isDefending := false, balance := 40 } }

/-- A state where the player can jump while the match is grappling (the
opponent is still `GrappleEngaged`). -/
def wJumpState : GameState := { wMoveState with player := wIdle }

/-- A low-balance fighter that is not grappling. -/
def wLowBal : Fighter := { wIdle with balance := 10 }

/-- A low-balance fighter that is grappling. -/
def wGrapplerLow : Fighter := { wGrapplerA with balance := 10 }

/-- A playing state about to time out. -/
def wTimeoutState : GameState :=
  { wPinState with pinningFighter := none, matchTimer := 1 }

/-- An operation sequence touching every operation kind of the
resource-bounds property. -/
def wOps : List FighterOp :=
  [.stateTimerUpd 1, .regen (1 / 2), .moveStep .left 1, .moveCosts 1,
   .grappleDrain 1, .jumpStart, .jumpStep (1 / 10), .stompHit,
   .balanceDelta (-30), .staminaDelta 200, .fallReset 412 (-100)]

/-! ## Helper lemmas -/

theorem MAX_BALANCE_pos : (0 : ℚ) ≤ MAX_BALANCE := by norm_num [MAX_BALANCE]

theorem MAX_STAMINA_pos : (0 : ℚ) ≤ MAX_STAMINA := by norm_num [MAX_STAMINA]

/-- Each single update operation keeps balance and stamina in [0, 100]. -/
theorem applyFighterOp_resources (f : Fighter) (op : FighterOp)
    (hop : opOk op = true) (hf : resourcesOk f) :
    resourcesOk (applyFighterOp f op) := by
  obtain ⟨hb0, hb1, hs0, hs1⟩ := hf
  cases op with
  | stateTimerUpd dt =>
      simp only [applyFighterOp, updateStateTimer]
      split_ifs <;> exact ⟨hb0, hb1, hs0, hs1⟩
  | regen dt =>
      simp only [opOk, decide_eq_true_eq] at hop
      simp only [applyFighterOp, regenerate]
      split_ifs with h h2
      · exact ⟨hb0, hb1, hs0, hs1⟩
      all_goals
        refine ⟨le_min MAX_BALANCE_pos (by norm_num [BALANCE_REGEN_RATE]; nlinarith),
          min_le_left _ _,
          le_min MAX_STAMINA_pos (by norm_num [STAMINA_REGEN_RATE]; nlinarith),
          min_le_left _ _⟩
  | moveStep d dt =>
      simp only [applyFighterOp, moveFighter]
      exact ⟨hb0, hb1, hs0, hs1⟩
  | moveCosts dt =>
      simp only [opOk, decide_eq_true_eq] at hop
      simp only [applyFighterOp, applyMovementCosts]
      split_ifs <;>
        exact ⟨le_max_left _ _,
          max_le MAX_BALANCE_pos
            (by norm_num [BALANCE_MOVE_COST]; nlinarith),
          le_max_left _ _,
          max_le MAX_STAMINA_pos
            (by norm_num [STAMINA_MOVE_COST]; nlinarith)⟩
  | grappleDrain dt =>
      simp only [opOk, decide_eq_true_eq] at hop
      simp only [applyFighterOp, applyGrappleCosts]
      exact ⟨le_max_left _ _,
        max_le MAX_BALANCE_pos (by norm_num [BALANCE_GRAPPLE_DRAIN]; nlinarith),
        hs0, hs1⟩
  | jumpStart =>
      simp only [applyFighterOp, startJump]
      split_ifs with h
      · simp only [canJump, Bool.and_eq_true, decide_eq_true_eq] at h
        refine ⟨hb0, hb1, ?_, ?_⟩
        · show (0 : ℚ) ≤ f.stamina - JUMP_STAMINA_COST
          linarith [h.2]
        · show f.stamina - JUMP_STAMINA_COST ≤ MAX_STAMINA
          norm_num [JUMP_STAMINA_COST]
          linarith
      · exact ⟨hb0, hb1, hs0, hs1⟩
  | jumpStep dt =>
      simp only [applyFighterOp, updateJumpPhysics]
      split_ifs with h h2
      · exact ⟨hb0, hb1, hs0, hs1⟩
      · exact ⟨le_max_left _ _,
          max_le MAX_BALANCE_pos (by norm_num [JUMP_BALANCE_COST]; linarith),
          hs0, hs1⟩
      · exact ⟨hb0, hb1, hs0, hs1⟩
  | stompHit =>
      simp only [applyFighterOp, transitionState, updateBalance]
      exact ⟨le_max_left _ _, max_le MAX_BALANCE_pos (min_le_left _ _), hs0, hs1⟩
  | balanceDelta d =>
      simp only [applyFighterOp, updateBalance]
      exact ⟨le_max_left _ _, max_le MAX_BALANCE_pos (min_le_left _ _), hs0, hs1⟩
  | staminaDelta d =>
      simp only [applyFighterOp, updateStamina]
      exact ⟨hb0, hb1, le_max_left _ _, max_le MAX_STAMINA_pos (min_le_left _ _)⟩
  | fallReset x p =>
      simp only [applyFighterOp, resetAfterFall]
      exact ⟨by norm_num [MAX_BALANCE], by norm_num [MAX_BALANCE],
        le_min MAX_STAMINA_pos (by linarith), min_le_left _ _⟩

/-! ## C1 -/

/-- C1: for every fighter and every sequence of the core update
operations (state-timer updates, regeneration, movement and grapple
costs, jump start/landing, stomp damage, balance/stamina deltas, fall
reset) with nonnegative elapsed times, the balance and stamina of the fighter
remain within [0, 100]. -/
theorem balance_stamina_in_bounds (ops : List FighterOp) (f : Fighter)
    (hops : ops.all opOk = true) (hf : resourcesOk f) :
    resourcesOk (ops.foldl applyFighterOp f) := by
  induction ops generalizing f with
  | nil => exact hf
  | cons op ops ih =>
      simp only [List.all_cons, Bool.and_eq_true] at hops
      exact ih (applyFighterOp f op) hops.2
        (applyFighterOp_resources f op hops.1 hf)

/-- Witness for C1 at a concrete fighter and operation sequence. -/
theorem balance_stamina_in_bounds_witness :
    wOps.all opOk = true ∧ resourcesOk wIdle ∧
      resourcesOk (wOps.foldl applyFighterOp wIdle) :=
  ⟨by with_unfolding_all decide, by with_unfolding_all decide,
    balance_stamina_in_bounds wOps wIdle (by with_unfolding_all decide)
      (by with_unfolding_all decide)⟩

/-! ## C2 -/

/-- C2: in an unpaused `Playing` state, a tick whose elapsed time makes the
match timer reach 0 ends the match: the resulting state is `GameOver` with
reason `timeout` and a winner determined strictly by score comparison, and
the tick returns immediately — fighters, pin state, grapple state and
callout are untouched. -/
theorem timeout_ends_match (s : GameState) (dt : ℚ) (input : InputState)
    (env : Env) (hs : s.scene = .Playing) (hp : s.isPaused = false)
    (ht : s.matchTimer ≤ dt) :
    (updateGame s dt input env).scene = .GameOver ∧
    (updateGame s dt input env).result =
      some { winner :=
               if s.opponent.score < s.player.score then .player
               else if s.player.score < s.opponent.score then .opponent
               else .draw
             reason := .timeout
             playerScore := s.player.score
             opponentScore := s.opponent.score
             matchDuration := MATCH_DURATION } ∧
    (updateGame s dt input env).player = s.player ∧
    (updateGame s dt input env).opponent = s.opponent ∧
    (updateGame s dt input env).pinProgress = s.pinProgress ∧
    (updateGame s dt input env).pinningFighter = s.pinningFighter ∧
    (updateGame s dt input env).isGrappling = s.isGrappling ∧
    (updateGame s dt input env).currentCallout = s.currentCallout := by
  have h1 : updateMatchTimer s dt = { s with matchTimer := max 0 (s.matchTimer - dt) } := by
    unfold updateMatchTimer
    rw [if_neg]
    simp [hs, hp]
  have h2 : max 0 (s.matchTimer - dt) = 0 := max_eq_left (by linarith)
  have h3 : checkTimeout (updateMatchTimer s dt) =
      some { winner :=
               if s.opponent.score < s.player.score then .player
               else if s.player.score < s.opponent.score then .opponent
               else .draw
             reason := .timeout
             playerScore := s.player.score
             opponentScore := s.opponent.score
             matchDuration := MATCH_DURATION - max 0 (s.matchTimer - dt) } := by
    rw [h1]
    unfold checkTimeout
    rw [if_pos]
    exact le_of_eq h2
  have h4 : updateGame s dt input env =
      endMatch (updateMatchTimer s dt)
        (if s.opponent.score < s.player.score then .player
         else if s.player.score < s.opponent.score then .opponent
         else .draw) .timeout := by
    unfold updateGame
    rw [if_neg (by simp [hs]), if_neg (by simp [hs, hp])]
    simp only [h3]
  rw [h4, h1]
  unfold endMatch
  refine ⟨rfl, ?_, rfl, rfl, rfl, rfl, rfl, rfl⟩
  simp [h2]

/-- Witness for C2 at a concrete about-to-expire playing state. -/
theorem timeout_ends_match_witness :
    wTimeoutState.scene = .Playing ∧ wTimeoutState.isPaused = false ∧
      wTimeoutState.matchTimer ≤ 2 ∧
      (updateGame wTimeoutState 2 wInput wEnv).scene = .GameOver :=
  ⟨rfl, rfl, by with_unfolding_all decide,
    (timeout_ends_match wTimeoutState 2 wInput wEnv rfl rfl
      (by with_unfolding_all decide)).1⟩

/-! ## C3 -/

/-- C3: while a pin is active, a pin-progress update with nonnegative
elapsed time leaves the progress non-decreasing and the pin intact as long
as the pin preconditions hold, and the first update at which any
precondition fails sets the progress to exactly 0 and clears the pinning
fighter. -/
theorem pin_progress_monotone_or_reset (s : GameState) (dt : ℚ)
    (a : FighterId) (hpf : s.pinningFighter = some a) (hdt : 0 ≤ dt)
    (hub : s.pinProgress ≤ 1) :
    (pinPreconds s = true →
      (updatePinProgress s dt).pinningFighter = some a ∧
      s.pinProgress ≤ (updatePinProgress s dt).pinProgress) ∧
    (pinPreconds s = false →
      (updatePinProgress s dt).pinProgress = 0 ∧
      (updatePinProgress s dt).pinningFighter = none) := by
  unfold updatePinProgress
  rw [if_neg (by rw [hpf]; simp)]
  constructor
  · intro hvalid
    rw [if_pos hvalid]
    refine ⟨hpf, ?_⟩
    show s.pinProgress ≤ min 1 (s.pinProgress + dt / PIN_DURATION)
    refine le_min hub ?_
    have : 0 ≤ dt / PIN_DURATION := by
      apply div_nonneg hdt
      norm_num [PIN_DURATION]
    linarith
  · intro hinvalid
    rw [if_neg (by simp [hinvalid])]
    exact ⟨rfl, rfl⟩

/-- Witness for C3 at a concrete active pin with valid preconditions. -/
theorem pin_progress_monotone_or_reset_witness :
    (updatePinProgress wPinState 1).pinningFighter = some .player ∧
      wPinState.pinProgress ≤ (updatePinProgress wPinState 1).pinProgress :=
  (pin_progress_monotone_or_reset wPinState 1 .player rfl
      (by with_unfolding_all decide) (by with_unfolding_all decide)).1
    (by with_unfolding_all decide)

/-! ## C4 supporting lemmas -/

theorem updateMatchTimer_pinProgress (s : GameState) (dt : ℚ) :
    (updateMatchTimer s dt).pinProgress = s.pinProgress := by
  unfold updateMatchTimer; split <;> rfl

theorem fightersPhase_pinProgress (s : GameState) (dt : ℚ) (input : InputState)
    (env : Env) : (fightersPhase s dt input env).pinProgress = s.pinProgress := rfl

theorem expireCallout_pinProgress (s : GameState) (env : Env) :
    (expireCallout s env).pinProgress = s.pinProgress := by
  unfold expireCallout
  split
  · rfl
  · split_ifs <;> rfl

theorem checkTimeout_none (s : GameState) (h : 0 < s.matchTimer) :
    checkTimeout s = none := by
  unfold checkTimeout
  rw [if_neg (not_le.mpr h)]

theorem updateMatchTimer_playing (s : GameState) (dt : ℚ)
    (hs : s.scene = .Playing) (hp : s.isPaused = false) :
    updateMatchTimer s dt = { s with matchTimer := max 0 (s.matchTimer - dt) } := by
  unfold updateMatchTimer
  rw [if_neg]
  simp [hs, hp]

/-- With the scene `Playing`, unpaused and the timer not exhausted, a tick
is the fighter phase followed by the pin phase. -/
theorem updateGame_eq_pinPhase (s : GameState) (dt : ℚ) (input : InputState)
    (env : Env) (hs : s.scene = .Playing) (hp : s.isPaused = false)
    (ht : dt < s.matchTimer) :
    updateGame s dt input env =
      pinPhase (fightersPhase (updateMatchTimer s dt) dt input env) dt env := by
  unfold updateGame
  rw [if_neg (by simp [hs]), if_neg (by simp [hs, hp])]
  have h0 : checkTimeout (updateMatchTimer s dt) = none := by
    apply checkTimeout_none
    rw [updateMatchTimer_playing s dt hs hp]
    show 0 < max 0 (s.matchTimer - dt)
    exact lt_max_iff.mpr (Or.inr (by linarith))
  simp only [h0]

theorem updateGame_gameOver (s : GameState) (dt : ℚ) (input : InputState)
    (env : Env) (h : s.scene = .GameOver) : updateGame s dt input env = s := by
  unfold updateGame
  rw [if_neg (by simp [h]), if_pos (by simp [h])]

theorem checkPinVictory_some (s : GameState) (a : FighterId)
    (hpf : s.pinningFighter = some a) (h : 1 ≤ s.pinProgress) :
    checkPinVictory s =
      some { winner := .ofId a, reason := .pin, playerScore := s.player.score
             opponentScore := s.opponent.score
             matchDuration := MATCH_DURATION - s.matchTimer } := by
  unfold checkPinVictory
  rw [hpf]
  show (if 1 ≤ s.pinProgress then
      some ({ winner := Winner.ofId a, reason := GameEndReason.pin
              playerScore := s.player.score, opponentScore := s.opponent.score
              matchDuration := MATCH_DURATION - s.matchTimer } : GameResult)
    else none) = _
  rw [if_pos h]

theorem checkPinVictory_none (s : GameState) (h : s.pinProgress < 1) :
    checkPinVictory s = none := by
  unfold checkPinVictory
  cases hpf : s.pinningFighter with
  | none => rfl
  | some pf =>
      show (if 1 ≤ s.pinProgress then
          some ({ winner := Winner.ofId pf, reason := GameEndReason.pin
                  playerScore := s.player.score, opponentScore := s.opponent.score
                  matchDuration := MATCH_DURATION - s.matchTimer } : GameResult)
        else none) = none
      rw [if_neg (not_le.mpr h)]

/-- A valid pin that reaches full progress this tick ends the match. -/
theorem pinPhase_completes (s : GameState) (dt : ℚ) (env : Env) (a : FighterId)
    (hpf : s.pinningFighter = some a) (hvalid : pinPreconds s = true)
    (hreach : 1 ≤ s.pinProgress + dt / PIN_DURATION) :
    pinPhase s dt env = endMatch { s with pinProgress := 1 } (Winner.ofId a) .pin := by
  have hupd : updatePinProgress s dt = { s with pinProgress := 1 } := by
    unfold updatePinProgress
    rw [if_neg (by rw [hpf]; simp), if_pos hvalid, min_eq_left hreach]
  have hvic : checkPinVictory { s with pinProgress := 1 } =
      some { winner := .ofId a, reason := .pin, playerScore := s.player.score
             opponentScore := s.opponent.score
             matchDuration := MATCH_DURATION - s.matchTimer } :=
    checkPinVictory_some _ a hpf le_rfl
  unfold pinPhase
  rw [if_pos (by rw [hpf]; rfl), hupd, hvic]

/-- A valid pin that does not yet reach full progress accumulates exactly
`dt / PIN_DURATION`. -/
theorem pinPhase_continues (s : GameState) (dt : ℚ) (env : Env) (a : FighterId)
    (hpf : s.pinningFighter = some a) (hvalid : pinPreconds s = true)
    (hlt : s.pinProgress + dt / PIN_DURATION < 1) :
    pinPhase s dt env =
      expireCallout { s with pinProgress := s.pinProgress + dt / PIN_DURATION } env := by
  have hupd : updatePinProgress s dt =
      { s with pinProgress := s.pinProgress + dt / PIN_DURATION } := by
    unfold updatePinProgress
    rw [if_neg (by rw [hpf]; simp), if_pos hvalid, min_eq_right (le_of_lt hlt)]
  have hvic : checkPinVictory
      { s with pinProgress := s.pinProgress + dt / PIN_DURATION } = none :=
    checkPinVictory_none _ hlt
  unfold pinPhase
  rw [if_pos (by rw [hpf]; rfl), hupd, hvic]

/-! ## C4 -/

/-- C4: in a playing state, a pin held with preconditions intact across
ticks whose elapsed times complete the fixed 3-second pin duration ends
the match in that tick with reason `pin` and the pinning fighter as
winner, and every later tick returns the ended state unchanged. -/
theorem pin_held_full_duration_wins (a : FighterId) (ts : List Tick) :
    ∀ s : GameState, pinHyps a s ts = true →
      sumsTo3 s.pinProgress (ts.map Tick.dt) = true →
      (runTicks s ts).scene = .GameOver ∧
      (∃ r, (runTicks s ts).result = some r ∧ r.winner = Winner.ofId a ∧
        r.reason = .pin) ∧
      (∀ t : Tick, updateGame (runTicks s ts) t.dt t.input t.env = runTicks s ts) := by
  induction ts with
  | nil =>
      intro s _ h2
      simp [sumsTo3] at h2
  | cons t ts ih =>
      intro s h1 h2
      simp only [pinHyps, Bool.and_eq_true, decide_eq_true_eq,
        Bool.not_eq_true'] at h1
      obtain ⟨⟨⟨⟨⟨⟨hs, hp⟩, hdt⟩, hlt⟩, hmidpf⟩, hmidvalid⟩, hrest⟩ := h1
      have hmp : (midTickState s t).pinProgress = s.pinProgress := by
        unfold midTickState
        rw [fightersPhase_pinProgress, updateMatchTimer_pinProgress]
      have hstep : updateGame s t.dt t.input t.env =
          pinPhase (midTickState s t) t.dt t.env :=
        updateGame_eq_pinPhase s t.dt t.input t.env hs hp hlt
      have hrun : runTicks s (t :: ts) =
          runTicks (updateGame s t.dt t.input t.env) ts := rfl
      simp only [List.map_cons, sumsTo3] at h2
      by_cases hfull : 1 ≤ s.pinProgress + t.dt / PIN_DURATION
      · rw [if_pos hfull] at h2
        have hts : ts = [] := by
          simpa using h2
        subst hts
        have hdone : updateGame s t.dt t.input t.env =
            endMatch { midTickState s t with pinProgress := 1 }
              (Winner.ofId a) .pin := by
          rw [hstep]
          exact pinPhase_completes _ _ _ a hmidpf hmidvalid (by rw [hmp]; exact hfull)
        refine ⟨?_, ?_, ?_⟩
        · show (updateGame s t.dt t.input t.env).scene = .GameOver
          rw [hdone]; rfl
        · have hres : (updateGame s t.dt t.input t.env).result =
              some { winner := Winner.ofId a, reason := GameEndReason.pin
                     playerScore := (midTickState s t).player.score
                     opponentScore := (midTickState s t).opponent.score
                     matchDuration := MATCH_DURATION - (midTickState s t).matchTimer } := by
            rw [hdone]; rfl
          exact ⟨_, hres, rfl, rfl⟩
        · intro t'
          apply updateGame_gameOver
          show (updateGame s t.dt t.input t.env).scene = .GameOver
          rw [hdone]; rfl
      · rw [if_neg hfull] at h2
        have hnext : updateGame s t.dt t.input t.env =
            expireCallout
              { midTickState s t with
                  pinProgress := s.pinProgress + t.dt / PIN_DURATION } t.env := by
          rw [hstep]
          have := pinPhase_continues (midTickState s t) t.dt t.env a hmidpf
            hmidvalid (by rw [hmp]; exact not_le.mp hfull)
          rw [this, hmp]
        have hprog : (updateGame s t.dt t.input t.env).pinProgress =
            s.pinProgress + t.dt / PIN_DURATION := by
          rw [hnext, expireCallout_pinProgress]
        rw [hrun]
        exact ih (updateGame s t.dt t.input t.env) hrest (by rw [hprog]; exact h2)

/-- Witness for C4: a concrete pin held across two 1.5-second ticks. -/
theorem pin_held_full_duration_wins_witness :
    pinHyps .player wPinState [wTick, wTick] = true ∧
      sumsTo3 wPinState.pinProgress ([wTick, wTick].map Tick.dt) = true ∧
      ((runTicks wPinState [wTick, wTick]).scene = .GameOver ∧
        (∃ r, (runTicks wPinState [wTick, wTick]).result = some r ∧
          r.winner = Winner.ofId .player ∧ r.reason = .pin) ∧
        (∀ t : Tick,
          updateGame (runTicks wPinState [wTick, wTick]) t.dt t.input t.env =
            runTicks wPinState [wTick, wTick])) :=
  ⟨by with_unfolding_all decide, by with_unfolding_all decide,
    pin_held_full_duration_wins .player [wTick, wTick] wPinState
      (by with_unfolding_all decide) (by with_unfolding_all decide)⟩

/-! ## C5 -/

/-- C5 counterexample: two evaluations of move execution from the same
state, action and elapsed time but different ambient random rolls produce
different next states, so the transition is not a function of
(state, input, elapsed time) alone.  `wEnv` and `wEnvHighRoll` differ only
in the `Math.random()` sample. -/
theorem tick_not_deterministic_counterexample :
    wEnv.now = wEnvHighRoll.now ∧ wEnv.calloutId = wEnvHighRoll.calloutId ∧
    gameReducer wMoveState (.executeMoveAct .player .pancake) wEnv ≠
      gameReducer wMoveState (.executeMoveAct .player .pancake) wEnvHighRoll := by
  refine ⟨rfl, rfl, ?_⟩
  with_unfolding_all decide

/-- C5 (amended): the transition is deterministic given the previous
state, the action (input snapshot and elapsed time included) and the
sampled ambient environment (wall-clock time, random roll, callout id):
any two evaluations with identical such inputs produce identical next
states. -/
theorem transition_deterministic (s₁ s₂ : GameState) (a₁ a₂ : GameAction)
    (e₁ e₂ : Env) (hs : s₁ = s₂) (ha : a₁ = a₂) (he : e₁ = e₂) :
    gameReducer s₁ a₁ e₁ = gameReducer s₂ a₂ e₂ := by
  subst hs; subst ha; subst he; rfl

/-- Witness for the amended C5. -/
theorem transition_deterministic_witness :
    gameReducer wMoveState (.executeMoveAct .player .pancake) wEnv =
      gameReducer wMoveState (.executeMoveAct .player .pancake) wEnv :=
  transition_deterministic wMoveState wMoveState _ _ wEnv wEnv rfl rfl rfl

/-! ## C6 -/

/-- C6 counterexample: an attacker with balance below the minimum of the move
whose validation nevertheless fails with the grappling reason, not a
balance-related one (the grappling check runs first). -/
theorem low_balance_reason_counterexample :
    wLowBal.balance < (MOVE_REQUIREMENTS .pancake).minBalance ∧
    (validateMove wLowBal wStunned .pancake).reason = some .mustBeGrappling ∧
    (validateMove wLowBal wStunned .pancake).reason ≠
      some (.needBalance (MOVE_REQUIREMENTS .pancake).minBalance) := by
  refine ⟨?_, ?_, ?_⟩ <;> with_unfolding_all decide

/-- C6 (amended): a move with attacker balance below the minimum of the move
always fails validation; and whenever the earlier checks pass (attacker
grappling, on the beam, in range), the failure reason is the
balance-related one. -/
theorem low_balance_always_fails (attacker defender : Fighter)
    (move : MoveType)
    (h : attacker.balance < (MOVE_REQUIREMENTS move).minBalance) :
    (validateMove attacker defender move).canExecute = false ∧
    (attacker.state = .GrappleEngaged → isOnBeam attacker = true →
      areInGrappleRange attacker defender GRAPPLE_RANGE = true →
      (validateMove attacker defender move).reason =
        some (.needBalance (MOVE_REQUIREMENTS move).minBalance)) := by
  constructor
  · simp only [validateMove]
    split_ifs <;> simp_all
  · intro h1 h2 h3
    simp only [validateMove]
    rw [if_neg (by simp [h1]), if_neg (by simp [h2]), if_neg (by simp [h3]),
      if_pos h]

/-- Witness for the amended C6 at a grappling low-balance attacker. -/
theorem low_balance_always_fails_witness :
    wGrapplerLow.balance < (MOVE_REQUIREMENTS .pancake).minBalance ∧
    ((validateMove wGrapplerLow wDefender .pancake).canExecute = false ∧
      (wGrapplerLow.state = .GrappleEngaged → isOnBeam wGrapplerLow = true →
        areInGrappleRange wGrapplerLow wDefender GRAPPLE_RANGE = true →
        (validateMove wGrapplerLow wDefender .pancake).reason =
          some (.needBalance (MOVE_REQUIREMENTS .pancake).minBalance))) :=
  ⟨by with_unfolding_all decide,
    low_balance_always_fails wGrapplerLow wDefender .pancake
      (by with_unfolding_all decide)⟩

/-! ## C7 -/

/-- C7: when a valid move is countered (defender defending and the counter
roll below the 40% threshold), the defender is completely untouched (in
particular not stunned), the attacker gains no points and no combo or
last-move-time update, and the attacker enters `Recovering` for the
move-specific recovery duration. -/
theorem countered_move_no_effect (s : GameState) (fid : FighterId)
    (move : MoveType) (env : Env)
    (hval : (validateMove (getFighter s fid) (getFighter s fid.other) move).canExecute = true)
    (hdef : (getFighter s fid.other).isDefending = true)
    (hroll : env.roll < 0.4) :
    getFighter (handleExecuteMove s fid move env) fid.other =
      getFighter s fid.other ∧
    (getFighter (handleExecuteMove s fid move env) fid).state = .Recovering ∧
    (getFighter (handleExecuteMove s fid move env) fid).stateTimer =
      (if move = .pancake then (0.3 : ℚ) else if move = .scissors then 0.4 else 0.5) ∧
    (getFighter (handleExecuteMove s fid move env) fid).score =
      (getFighter s fid).score ∧
    (getFighter (handleExecuteMove s fid move env) fid).comboCount =
      (getFighter s fid).comboCount ∧
    (getFighter (handleExecuteMove s fid move env) fid).lastMoveTime =
      (getFighter s fid).lastMoveTime := by
  have hd : decide (env.roll < (0.4 : ℚ)) = true := decide_eq_true hroll
  cases fid <;> cases move <;>
    simp_all [handleExecuteMove, executeMove, executePancake, executeScissors,
      executeGuillotine, getFighter, FighterId.other, setCallout, updateFighters,
      transitionState, updateStamina]

/-- Witness for C7: a concrete countered pancake. -/
theorem countered_move_no_effect_witness :
    (validateMove (getFighter wMoveState .player)
        (getFighter wMoveState FighterId.player.other) .pancake).canExecute = true ∧
    (getFighter wMoveState FighterId.player.other).isDefending = true ∧
    wEnv.roll < 0.4 ∧
    (getFighter (handleExecuteMove wMoveState .player .pancake wEnv)
        FighterId.player.other = getFighter wMoveState FighterId.player.other ∧
      (getFighter (handleExecuteMove wMoveState .player .pancake wEnv) .player).state =
        .Recovering ∧
      (getFighter (handleExecuteMove wMoveState .player .pancake wEnv) .player).stateTimer =
        (if MoveType.pancake = .pancake then (0.3 : ℚ)
         else if MoveType.pancake = .scissors then 0.4 else 0.5) ∧
      (getFighter (handleExecuteMove wMoveState .player .pancake wEnv) .player).score =
        (getFighter wMoveState .player).score ∧
      (getFighter (handleExecuteMove wMoveState .player .pancake wEnv) .player).comboCount =
        (getFighter wMoveState .player).comboCount ∧
      (getFighter (handleExecuteMove wMoveState .player .pancake wEnv) .player).lastMoveTime =
        (getFighter wMoveState .player).lastMoveTime) :=
  ⟨by with_unfolding_all decide, by with_unfolding_all decide,
    by with_unfolding_all decide,
    countered_move_no_effect wMoveState .player .pancake wEnv
      (by with_unfolding_all decide) (by with_unfolding_all decide)
      (by with_unfolding_all decide)⟩

/-! ## C8 -/

set_option maxHeartbeats 1000000 in
/-- C8: an uncountered scissors whose balance drain drops the defender
balance to 0 gives the defender no stun and sends it `Falling`, while the
attacker is awarded exactly `round(0.5 × base points)` regardless of any
balance, edge or combo bonus conditions. -/
theorem scissors_fall_half_points (s : GameState) (fid : FighterId)
    (env : Env)
    (hval : (validateMove (getFighter s fid) (getFighter s fid.other) .scissors).canExecute = true)
    (hwc : ((getFighter s fid.other).isDefending && decide (env.roll < (0.4 : ℚ))) = false)
    (hbal : (getFighter s fid.other).balance ≤ (MOVE_TIMINGS .scissors).balanceDrainRate) :
    (getFighter (handleExecuteMove s fid .scissors env) fid).score =
      (getFighter s fid).score + jsRound (SCORING_moves .scissors * 0.5) ∧
    (getFighter (handleExecuteMove s fid .scissors env) fid.other).state = .Falling ∧
    (getFighter (handleExecuteMove s fid .scissors env) fid.other).balance = 0 ∧
    (getFighter (handleExecuteMove s fid .scissors env) fid.other).stateTimer = 0 := by
  have h0 : max 0 ((getFighter s fid.other).balance -
      (MOVE_TIMINGS .scissors).balanceDrainRate) = 0 :=
    max_eq_left (sub_nonpos.mpr hbal)
  have hminmax : max (0 : ℚ) (min MAX_BALANCE 0) = 0 := by
    rw [min_eq_right MAX_BALANCE_pos, max_self]
  rcases Bool.eq_false_or_eq_true (getFighter s fid.other).isDefending with hdef | hdef
  · have hd : ¬ (env.roll < (0.4 : ℚ)) := by
      intro hlt
      rw [hdef, decide_eq_true hlt] at hwc
      simp at hwc
    cases fid <;>
      simp only [getFighter, FighterId.other] at hval hdef hd h0 ⊢ <;>
      simp [handleExecuteMove, executeMove, executeScissors, getFighter,
        FighterId.other, setCallout, updateFighters, transitionState,
        updateStamina, updateBalance, startFalling, awardScore, Option.getD,
        sub_zero, hval, hdef, hd, h0, hminmax]
  · cases fid <;>
      simp only [getFighter, FighterId.other] at hval hdef h0 ⊢ <;>
      simp [handleExecuteMove, executeMove, executeScissors, getFighter,
        FighterId.other, setCallout, updateFighters, transitionState,
        updateStamina, updateBalance, startFalling, awardScore, Option.getD,
        sub_zero, hval, hdef, h0, hminmax]

/-- Witness for C8: a concrete scissors on a 40-balance defender. -/
theorem scissors_fall_half_points_witness :
    (validateMove (getFighter wScissorsState .player)
        (getFighter wScissorsState FighterId.player.other) .scissors).canExecute = true ∧
    ((getFighter wScissorsState FighterId.player.other).isDefending &&
        decide (wEnv.roll < (0.4 : ℚ))) = false ∧
    (getFighter wScissorsState FighterId.player.other).balance ≤
      (MOVE_TIMINGS .scissors).balanceDrainRate ∧
    ((getFighter (handleExecuteMove wScissorsState .player .scissors wEnv) .player).score =
        (getFighter wScissorsState .player).score + jsRound (SCORING_moves .scissors * 0.5) ∧
      (getFighter (handleExecuteMove wScissorsState .player .scissors wEnv)
          FighterId.player.other).state = .Falling ∧
      (getFighter (handleExecuteMove wScissorsState .player .scissors wEnv)
          FighterId.player.other).balance = 0 ∧
      (getFighter (handleExecuteMove wScissorsState .player .scissors wEnv)
          FighterId.player.other).stateTimer = 0) :=
  ⟨by with_unfolding_all decide, by with_unfolding_all decide,
    by with_unfolding_all decide,
    scissors_fall_half_points wScissorsState .player wEnv
      (by with_unfolding_all decide) (by with_unfolding_all decide)
      (by with_unfolding_all decide)⟩

/-! ## C9 -/

/-- C9 counterexample: a jump request from a fighter who is mid-grapple
(`isGrappling` set and the fighter `GrappleEngaged`) is rejected outright —
the state is returned unchanged, so the grapple is not broken. -/
theorem jump_mid_grapple_counterexample :
    wMoveState.isGrappling = true ∧ wMoveState.player.state = .GrappleEngaged ∧
    gameReducer wMoveState (.jump .player) wEnv = wMoveState := by
  refine ⟨rfl, rfl, ?_⟩
  with_unfolding_all decide

/-- C9 (amended): a `GrappleEngaged` fighter cannot jump at all (the jump
request is a no-op); it is a jump by a fighter who can jump (grounded,
`Idle`/`Moving`, enough stamina) while the match `isGrappling` that breaks
the grapple: the flag and initiator are cleared, any `GrappleEngaged`
participant returns to `Idle`, and the jumper enters `Jumping`. -/
theorem jump_grapple_interaction (s : GameState) (fid : FighterId) :
    ((getFighter s fid).state = .GrappleEngaged → handleJump s fid = s) ∧
    (canJump (getFighter s fid) = true → s.isGrappling = true →
      (handleJump s fid).isGrappling = false ∧
      (handleJump s fid).grappleInitiator = none ∧
      (getFighter (handleJump s fid) fid).state = .Jumping ∧
      ((getFighter s fid.other).state = .GrappleEngaged →
        (getFighter (handleJump s fid) fid.other).state = .Idle)) := by
  constructor
  · intro h
    unfold handleJump
    rw [if_pos]
    show ¬ canJump (getFighter s fid) = true
    simp [canJump, h]
  · intro hcj hg
    have hne : ¬ ((getFighter s fid).state = .GrappleEngaged) := by
      have hcj' := hcj
      simp only [canJump, Bool.and_eq_true, Bool.or_eq_true,
        decide_eq_true_eq] at hcj'
      rcases hcj'.1.1 with h | h <;> simp [h]
    cases fid
    · simp only [getFighter, FighterId.other] at hcj hne hg ⊢
      simp only [handleJump, getFighter, FighterId.other]
      rw [if_neg (by simp [hcj]), if_pos hg]
      refine ⟨?_, ?_, ?_, ?_⟩
      · simp [breakGrapple, setGrappling, updateFighters]
      · simp [breakGrapple, setGrappling, updateFighters]
      · simp [updateFighters, startJump, hcj]
      · intro hopp
        simp [breakGrapple, setGrappling, updateFighters, hopp, transitionState]
    · simp only [getFighter, FighterId.other] at hcj hne hg ⊢
      simp only [handleJump, getFighter, FighterId.other]
      rw [if_neg (by simp [hcj]), if_pos hg]
      refine ⟨?_, ?_, ?_, ?_⟩
      · simp [breakGrapple, setGrappling, updateFighters]
      · simp [breakGrapple, setGrappling, updateFighters]
      · simp [updateFighters, startJump, hcj]
      · intro hopp
        simp [breakGrapple, setGrappling, updateFighters, hopp, transitionState]

/-- Witness for the amended C9: the player jumps out of `wJumpState`,
where the opponent is still grapple-engaged. -/
theorem jump_grapple_interaction_witness :
    canJump (getFighter wJumpState .player) = true ∧
    wJumpState.isGrappling = true ∧
    ((handleJump wJumpState .player).isGrappling = false ∧
      (handleJump wJumpState .player).grappleInitiator = none ∧
      (getFighter (handleJump wJumpState .player) .player).state = .Jumping ∧
      ((getFighter wJumpState FighterId.player.other).state = .GrappleEngaged →
        (getFighter (handleJump wJumpState .player) FighterId.player.other).state =
          .Idle)) :=
  ⟨by with_unfolding_all decide, by with_unfolding_all decide,
    (jump_grapple_interaction wJumpState .player).2
      (by with_unfolding_all decide) (by with_unfolding_all decide)⟩

/-! ## C10 supporting lemmas: x-coordinate preservation -/

theorem updateStateTimer_x (f : Fighter) (dt : ℚ) :
    (updateStateTimer f dt).x = f.x := by
  simp only [updateStateTimer]; split_ifs <;> rfl

theorem updateJumpPhysics_x (f : Fighter) (dt : ℚ) :
    (updateJumpPhysics f dt).x = f.x := by
  simp only [updateJumpPhysics]; split_ifs <;> rfl

theorem regenerate_x (f : Fighter) (dt : ℚ) : (regenerate f dt).x = f.x := by
  simp only [regenerate]; split_ifs <;> rfl

theorem applyMovementCosts_x (f : Fighter) (dt : ℚ) :
    (applyMovementCosts f dt).x = f.x := rfl

theorem applyGrappleCosts_x (f : Fighter) (dt : ℚ) :
    (applyGrappleCosts f dt).x = f.x := rfl

theorem updateBalance_x (f : Fighter) (d : ℚ) : (updateBalance f d).x = f.x := rfl

theorem updateStamina_x (f : Fighter) (d : ℚ) : (updateStamina f d).x = f.x := rfl

theorem transitionState_x (f : Fighter) (st : FighterState) (d : ℚ) :
    (transitionState f st d).x = f.x := rfl

theorem awardScore_x (f : Fighter) (p : ℤ) : (awardScore f p).x = f.x := rfl

theorem setIdle_x (f : Fighter) : (setIdle f).x = f.x := by
  unfold setIdle; split_ifs <;> rfl

theorem startFalling_x (f : Fighter) : (startFalling f).x = f.x := rfl

theorem startJump_x (f : Fighter) : (startJump f).x = f.x := by
  unfold startJump; split_ifs <;> rfl

theorem markJumpedOver_x (f : Fighter) : (markJumpedOver f).x = f.x := rfl

theorem updateFacing_x (f : Fighter) (ox : ℚ) : (updateFacing f ox).x = f.x := rfl

theorem ite_x (c : Prop) [Decidable c] (a b : Fighter) :
    (if c then a else b).x = if c then a.x else b.x := by
  split_ifs <;> rfl

theorem clampLeft_mem (x A : ℚ) (hA : 0 ≤ A) (hx : inBeamRange x) :
    inBeamRange (max (BEAM_LEFT + FIGHTER_WIDTH / 2) (x - A)) := by
  obtain ⟨h1, h2⟩ := hx
  refine ⟨le_max_left _ _, max_le ?_ (by linarith)⟩
  norm_num [BEAM_LEFT, BEAM_RIGHT, FIGHTER_WIDTH, BEAM_WIDTH, CANVAS_WIDTH]

theorem clampRight_mem (x A : ℚ) (hA : 0 ≤ A) (hx : inBeamRange x) :
    inBeamRange (min (BEAM_RIGHT - FIGHTER_WIDTH / 2) (x + A)) := by
  obtain ⟨h1, h2⟩ := hx
  refine ⟨le_min ?_ (by linarith), min_le_left _ _⟩
  norm_num [BEAM_LEFT, BEAM_RIGHT, FIGHTER_WIDTH, BEAM_WIDTH, CANVAS_WIDTH]

/-- Ground movement clamps x into the beam interval. -/
theorem moveFighter_x_mem (f : Fighter) (d : FacingDirection) (dt : ℚ)
    (hdt : 0 ≤ dt) (hx : inBeamRange f.x) :
    inBeamRange (moveFighter f d dt).x := by
  have hamt : 0 ≤ FIGHTER_SPEED * dt *
      (if f.stamina < LOW_STAMINA_THRESHOLD then (0.6 : ℚ) else 1) := by
    split_ifs <;>
      exact mul_nonneg (mul_nonneg (by norm_num [FIGHTER_SPEED]) hdt) (by norm_num)
  cases d
  · show inBeamRange (max (BEAM_LEFT + FIGHTER_WIDTH / 2)
      (f.x - FIGHTER_SPEED * dt *
        (if f.stamina < LOW_STAMINA_THRESHOLD then (0.6 : ℚ) else 1)))
    exact clampLeft_mem _ _ hamt hx
  · show inBeamRange (min (BEAM_RIGHT - FIGHTER_WIDTH / 2)
      (f.x + FIGHTER_SPEED * dt *
        (if f.stamina < LOW_STAMINA_THRESHOLD then (0.6 : ℚ) else 1)))
    exact clampRight_mem _ _ hamt hx

/-- Air movement clamps x into the beam interval. -/
theorem moveInAir_x_mem (f : Fighter) (d : FacingDirection) (dt : ℚ)
    (hdt : 0 ≤ dt) (hx : inBeamRange f.x) :
    inBeamRange (moveInAir f d dt).x := by
  by_cases h : f.state ≠ FighterState.Jumping
  · unfold moveInAir
    rw [if_pos h]
    exact hx
  · have hamt : 0 ≤ FIGHTER_SPEED * dt * (0.6 : ℚ) :=
      mul_nonneg (mul_nonneg (by norm_num [FIGHTER_SPEED]) hdt) (by norm_num)
    unfold moveInAir
    rw [if_neg h]
    cases d
    · show inBeamRange (max (BEAM_LEFT + FIGHTER_WIDTH / 2)
        (f.x - FIGHTER_SPEED * dt * (0.6 : ℚ)))
      exact clampLeft_mem _ _ hamt hx
    · show inBeamRange (min (BEAM_RIGHT - FIGHTER_WIDTH / 2)
        (f.x + FIGHTER_SPEED * dt * (0.6 : ℚ)))
      exact clampRight_mem _ _ hamt hx

theorem stompVictim_x (f : Fighter) : (stompVictim f).x = f.x := rfl

theorem regenIfGrounded_x (f : Fighter) (dt : ℚ) :
    (regenIfGrounded f dt).x = f.x := by
  unfold regenIfGrounded
  split_ifs <;> simp [regenerate_x]

theorem grappleCostIf_x (g : Bool) (f : Fighter) (dt : ℚ) :
    (grappleCostIf g f dt).x = f.x := by
  unfold grappleCostIf
  split_ifs <;> rfl

theorem fallCheck_x (f : Fighter) : (fallCheck f).x = f.x := by
  unfold fallCheck
  split_ifs <;> rfl

/-- The player-input block clamps x into the beam interval. -/
theorem playerInputPhase_x_mem (p : Fighter) (dt : ℚ) (input : InputState)
    (hdt : 0 ≤ dt) (hx : inBeamRange p.x) :
    inBeamRange (playerInputPhase p dt input).x := by
  simp only [playerInputPhase]
  split_ifs <;>
    first
      | exact hx
      | (show inBeamRange (applyMovementCosts (moveFighter p .left dt) dt).x
         rw [applyMovementCosts_x]
         exact moveFighter_x_mem p .left dt hdt hx)
      | (show inBeamRange (applyMovementCosts (moveFighter p .right dt) dt).x
         rw [applyMovementCosts_x]
         exact moveFighter_x_mem p .right dt hdt hx)
      | (show inBeamRange (setIdle p).x
         rw [setIdle_x]
         exact hx)
      | exact moveInAir_x_mem p .left dt hdt hx
      | exact moveInAir_x_mem p .right dt hdt hx

/-- The fighter phase of a tick keeps both fighters inside the beam
interval: only `moveFighter`/`moveInAir` change x, and both clamp. -/
theorem fightersPhase_x (s1 : GameState) (dt : ℚ) (input : InputState)
    (env : Env) (hdt : 0 ≤ dt) (h1 : inBeamRange s1.player.x)
    (h2 : inBeamRange s1.opponent.x) :
    inBeamRange (fightersPhase s1 dt input env).player.x ∧
    inBeamRange (fightersPhase s1 dt input env).opponent.x := by
  constructor
  · simp only [fightersPhase]
    simp only [ite_x, updateStateTimer_x, updateJumpPhysics_x, awardScore_x,
      markJumpedOver_x, stompVictim_x, regenIfGrounded_x, grappleCostIf_x,
      updateFacing_x, fallCheck_x, ite_self]
    refine playerInputPhase_x_mem _ _ _ hdt ?_
    simp only [ite_x, updateStateTimer_x, updateJumpPhysics_x, awardScore_x,
      markJumpedOver_x, stompVictim_x, ite_self]
    exact h1
  · simp only [fightersPhase]
    simp only [ite_x, updateStateTimer_x, updateJumpPhysics_x, awardScore_x,
      markJumpedOver_x, stompVictim_x, regenIfGrounded_x, grappleCostIf_x,
      updateFacing_x, fallCheck_x, ite_self]
    exact h2

/-! ## C10 supporting lemmas: reducer-level x preservation -/

theorem ite_player (c : Prop) [Decidable c] (a b : GameState) :
    (if c then a else b).player = if c then a.player else b.player := by
  split_ifs <;> rfl

theorem ite_opponent (c : Prop) [Decidable c] (a b : GameState) :
    (if c then a else b).opponent = if c then a.opponent else b.opponent := by
  split_ifs <;> rfl

theorem setCallout_player (s : GameState) (env : Env) (t : String)
    (st : Option String) : (setCallout s env t st).player = s.player := rfl

theorem setCallout_opponent (s : GameState) (env : Env) (t : String)
    (st : Option String) : (setCallout s env t st).opponent = s.opponent := rfl

theorem updateFighters_player (s : GameState) (p o : Fighter) :
    (updateFighters s p o).player = p := rfl

theorem updateFighters_opponent (s : GameState) (p o : Fighter) :
    (updateFighters s p o).opponent = o := rfl

theorem setGrappling_player (s : GameState) (g : Bool) (i : Option FighterId) :
    (setGrappling s g i).player = s.player := rfl

theorem setGrappling_opponent (s : GameState) (g : Bool) (i : Option FighterId) :
    (setGrappling s g i).opponent = s.opponent := rfl

theorem updateMatchTimer_player (s : GameState) (dt : ℚ) :
    (updateMatchTimer s dt).player = s.player := by
  unfold updateMatchTimer; split_ifs <;> rfl

theorem updateMatchTimer_opponent (s : GameState) (dt : ℚ) :
    (updateMatchTimer s dt).opponent = s.opponent := by
  unfold updateMatchTimer; split_ifs <;> rfl

theorem updateCountdown_player (s : GameState) (dt : ℚ) :
    (updateCountdown s dt).player = s.player := by
  simp only [updateCountdown]; split_ifs <;> rfl

theorem updateCountdown_opponent (s : GameState) (dt : ℚ) :
    (updateCountdown s dt).opponent = s.opponent := by
  simp only [updateCountdown]; split_ifs <;> rfl

theorem endMatch_player (s : GameState) (w : Winner) (r : GameEndReason) :
    (endMatch s w r).player = s.player := rfl

theorem endMatch_opponent (s : GameState) (w : Winner) (r : GameEndReason) :
    (endMatch s w r).opponent = s.opponent := rfl

theorem updatePinProgress_player (s : GameState) (dt : ℚ) :
    (updatePinProgress s dt).player = s.player := by
  unfold updatePinProgress; split_ifs <;> rfl

theorem updatePinProgress_opponent (s : GameState) (dt : ℚ) :
    (updatePinProgress s dt).opponent = s.opponent := by
  unfold updatePinProgress; split_ifs <;> rfl

theorem expireCallout_player (s : GameState) (env : Env) :
    (expireCallout s env).player = s.player := by
  unfold expireCallout
  split
  · rfl
  · split_ifs <;> rfl

theorem expireCallout_opponent (s : GameState) (env : Env) :
    (expireCallout s env).opponent = s.opponent := by
  unfold expireCallout
  split
  · rfl
  · split_ifs <;> rfl

theorem pinPhase_player (s : GameState) (dt : ℚ) (env : Env) :
    (pinPhase s dt env).player = s.player := by
  unfold pinPhase
  split_ifs
  · split
    · rw [endMatch_player, updatePinProgress_player]
    · rw [expireCallout_player, updatePinProgress_player]
  · rw [expireCallout_player]

theorem pinPhase_opponent (s : GameState) (dt : ℚ) (env : Env) :
    (pinPhase s dt env).opponent = s.opponent := by
  unfold pinPhase
  split_ifs
  · split
    · rw [endMatch_opponent, updatePinProgress_opponent]
    · rw [expireCallout_opponent, updatePinProgress_opponent]
  · rw [expireCallout_opponent]

/-- A full tick keeps both fighters inside the beam interval. -/
theorem updateGame_x (s : GameState) (dt : ℚ) (input : InputState) (env : Env)
    (hdt : 0 ≤ dt) (h1 : inBeamRange s.player.x) (h2 : inBeamRange s.opponent.x) :
    inBeamRange (updateGame s dt input env).player.x ∧
    inBeamRange (updateGame s dt input env).opponent.x := by
  unfold updateGame
  split_ifs with hA hB
  · exact ⟨by rw [updateCountdown_player]; exact h1,
      by rw [updateCountdown_opponent]; exact h2⟩
  · exact ⟨h1, h2⟩
  · split
    · exact ⟨by rw [endMatch_player, updateMatchTimer_player]; exact h1,
        by rw [endMatch_opponent, updateMatchTimer_opponent]; exact h2⟩
    · have hf := fightersPhase_x (updateMatchTimer s dt) dt input env hdt
        (by rw [updateMatchTimer_player]; exact h1)
        (by rw [updateMatchTimer_opponent]; exact h2)
      exact ⟨by rw [pinPhase_player]; exact hf.1,
        by rw [pinPhase_opponent]; exact hf.2⟩

theorem breakGrapple_player_x (s : GameState) :
    (breakGrapple s).player.x = s.player.x := by
  simp only [breakGrapple, setGrappling_player, updateFighters_player]
  split_ifs <;> rfl

theorem breakGrapple_opponent_x (s : GameState) :
    (breakGrapple s).opponent.x = s.opponent.x := by
  simp only [breakGrapple, setGrappling_opponent, updateFighters_opponent]
  split_ifs <;> rfl

theorem handleGrappleAttempt_px (s : GameState) (i : FighterId) :
    (handleGrappleAttempt s i).player.x = s.player.x ∧
    (handleGrappleAttempt s i).opponent.x = s.opponent.x := by
  cases i <;>
    simp only [handleGrappleAttempt, getFighter, FighterId.other] <;>
    constructor <;>
    simp [ite_player, ite_opponent, setGrappling_player,
      setGrappling_opponent, updateFighters_player, updateFighters_opponent,
      ite_x, transitionState_x, ite_self]

theorem handleExecuteMove_px (s : GameState) (fid : FighterId)
    (move : MoveType) (env : Env) :
    (handleExecuteMove s fid move env).player.x = s.player.x ∧
    (handleExecuteMove s fid move env).opponent.x = s.opponent.x := by
  cases fid <;>
    simp only [handleExecuteMove, getFighter, FighterId.other] <;>
    constructor <;>
    simp [ite_player, ite_opponent, setCallout_player, setCallout_opponent,
      updateFighters_player, updateFighters_opponent, ite_x, transitionState_x,
      updateStamina_x, awardScore_x, updateBalance_x, startFalling_x, ite_self]

theorem attemptPin_px (s : GameState) (a : FighterId) :
    (attemptPin s a).player.x = s.player.x ∧
    (attemptPin s a).opponent.x = s.opponent.x := by
  simp only [attemptPin, getFighter, FighterId.other]
  split_ifs <;> exact ⟨rfl, rfl⟩

theorem resetAfterFall_x (f : Fighter) (nx : ℚ) (p : ℤ) :
    (resetAfterFall f nx p).x = nx := rfl

theorem resetPosition_mem_left : inBeamRange getResetPositions.1 := by
  constructor <;>
    norm_num [getResetPositions, inBeamRange, BEAM_LEFT, BEAM_RIGHT,
      FIGHTER_WIDTH, BEAM_WIDTH, CANVAS_WIDTH]

theorem resetPosition_mem_right : inBeamRange getResetPositions.2 := by
  constructor <;>
    norm_num [getResetPositions, inBeamRange, BEAM_LEFT, BEAM_RIGHT,
      FIGHTER_WIDTH, BEAM_WIDTH, CANVAS_WIDTH]

theorem handleFighterFell_x (s : GameState) (fid : FighterId) (env : Env)
    (h1 : inBeamRange s.player.x) (h2 : inBeamRange s.opponent.x) :
    inBeamRange (handleFighterFell s fid env).player.x ∧
    inBeamRange (handleFighterFell s fid env).opponent.x := by
  cases fid <;>
    simp only [handleFighterFell, setCallout_player, setCallout_opponent,
      setGrappling_player, setGrappling_opponent, updateFighters_player,
      updateFighters_opponent, resetAfterFall_x, transitionState_x] <;>
    exact ⟨by first | exact resetPosition_mem_left | exact h1,
      by first | exact resetPosition_mem_right | exact h2⟩

theorem handleJump_px (s : GameState) (fid : FighterId) :
    (handleJump s fid).player.x = s.player.x ∧
    (handleJump s fid).opponent.x = s.opponent.x := by
  cases fid <;>
    simp only [handleJump, getFighter, FighterId.other] <;>
    constructor <;>
    simp [ite_player, ite_opponent, updateFighters_player,
      updateFighters_opponent, startJump_x, breakGrapple_player_x,
      breakGrapple_opponent_x, ite_x, ite_self]

theorem handleLand_px (s : GameState) (fid : FighterId) (st : Bool)
    (env : Env) :
    (handleLand s fid st env).player.x = s.player.x ∧
    (handleLand s fid st env).opponent.x = s.opponent.x := by
  cases fid <;>
    simp only [handleLand] <;>
    split_ifs <;>
    constructor <;>
    simp only [setCallout_player, setCallout_opponent, updateFighters_player,
      updateFighters_opponent, awardScore_x, updateBalance_x, transitionState_x]

theorem handleJumpedOver_px (s : GameState) (fid : FighterId) (env : Env) :
    (handleJumpedOver s fid env).player.x = s.player.x ∧
    (handleJumpedOver s fid env).opponent.x = s.opponent.x := by
  cases fid <;>
    simp only [handleJumpedOver, getFighter, FighterId.other] <;>
    constructor <;>
    simp [ite_player, ite_opponent, setCallout_player, setCallout_opponent,
      updateFighters_player, updateFighters_opponent, awardScore_x,
      markJumpedOver_x, ite_self]

theorem createInitialState_x (pn pom : String) :
    inBeamRange (createInitialState pn pom).player.x ∧
    inBeamRange (createInitialState pn pom).opponent.x := by
  constructor <;> constructor <;>
    norm_num [createInitialState, createFighter, inBeamRange, BEAM_LEFT,
      BEAM_RIGHT, FIGHTER_WIDTH, BEAM_WIDTH, CANVAS_WIDTH]

theorem resetPositions_x (s : GameState) :
    inBeamRange (resetPositions s).player.x ∧
    inBeamRange (resetPositions s).opponent.x := by
  simp only [resetPositions, setGrappling_player, setGrappling_opponent,
    updateFighters_player, updateFighters_opponent]
  exact ⟨resetPosition_mem_left, resetPosition_mem_right⟩

/-- Every reducer action keeps both fighters inside the beam interval. -/
theorem gameReducer_x (s : GameState) (a : GameAction) (env : Env)
    (ha : actionWF a) (h1 : inBeamRange s.player.x)
    (h2 : inBeamRange s.opponent.x) :
    inBeamRange (gameReducer s a env).player.x ∧
    inBeamRange (gameReducer s a env).opponent.x := by
  cases a with
  | startGame => exact createInitialState_x env.playerName env.opponentName
  | showHowToPlay => exact ⟨h1, h2⟩
  | hideHowToPlay => exact ⟨h1, h2⟩
  | pause =>
      simp only [gameReducer]
      split_ifs <;> exact ⟨h1, h2⟩
  | resume =>
      simp only [gameReducer]
      split_ifs <;> exact ⟨h1, h2⟩
  | restart => exact createInitialState_x env.playerName env.opponentName
  | update dt input => exact updateGame_x s dt input env ha h1 h2
  | attemptGrapple i =>
      have := handleGrappleAttempt_px s i
      exact ⟨this.1 ▸ h1, this.2 ▸ h2⟩
  | breakGrappleAct =>
      exact ⟨(breakGrapple_player_x s) ▸ h1, (breakGrapple_opponent_x s) ▸ h2⟩
  | executeMoveAct fid move =>
      have := handleExecuteMove_px s fid move env
      exact ⟨this.1 ▸ h1, this.2 ▸ h2⟩
  | moveComplete fid ok => exact ⟨h1, h2⟩
  | attemptPinAct a =>
      have := attemptPin_px s a
      exact ⟨this.1 ▸ h1, this.2 ▸ h2⟩
  | fighterFell fid => exact handleFighterFell_x s fid env h1 h2
  | jump fid =>
      have := handleJump_px s fid
      exact ⟨this.1 ▸ h1, this.2 ▸ h2⟩
  | land fid st =>
      have := handleLand_px s fid st env
      exact ⟨this.1 ▸ h1, this.2 ▸ h2⟩
  | jumpedOver fid =>
      have := handleJumpedOver_px s fid env
      exact ⟨this.1 ▸ h1, this.2 ▸ h2⟩
  | resetPositionsAct => exact resetPositions_x s
  | showCallout t st => exact ⟨h1, h2⟩
  | clearCalloutAct => exact ⟨h1, h2⟩
  | endMatchAct w r => exact ⟨h1, h2⟩

/-- Inside the beam interval, `isOnBeam` can only be false because of the
`Falling` state. -/
theorem isOnBeam_false_iff (f : Fighter) (hx : inBeamRange f.x) :
    (isOnBeam f = false ↔ f.state = .Falling) := by
  obtain ⟨hl, hr⟩ := hx
  have hA : decide (BEAM_LEFT ≤ f.x - FIGHTER_WIDTH / 2) = true :=
    decide_eq_true (by linarith)
  have hB : decide (f.x + FIGHTER_WIDTH / 2 ≤ BEAM_RIGHT) = true :=
    decide_eq_true (by linarith)
  simp [isOnBeam, hA, hB]

/-! ## C10 -/

/-- C10: ground and air movement clamp x to the beam interval (beam
extents minus half the fighter width); consequently every reducer-reachable
state keeps both fighters inside that interval, so the off-beam fall
condition can only trigger through the explicit `Falling` state — movement
alone can never take a fighter off the beam. -/
theorem movement_clamped_and_positions_reachable :
    (∀ (f : Fighter) (d : FacingDirection) (dt : ℚ), 0 ≤ dt →
      inBeamRange f.x →
      inBeamRange (moveFighter f d dt).x ∧ inBeamRange (moveInAir f d dt).x) ∧
    (∀ s : GameState, Reachable s →
      inBeamRange s.player.x ∧ inBeamRange s.opponent.x ∧
      (isOnBeam s.player = false ↔ s.player.state = .Falling) ∧
      (isOnBeam s.opponent = false ↔ s.opponent.state = .Falling)) := by
  constructor
  · intro f d dt hdt hx
    exact ⟨moveFighter_x_mem f d dt hdt hx, moveInAir_x_mem f d dt hdt hx⟩
  · intro s hs
    have hx : inBeamRange s.player.x ∧ inBeamRange s.opponent.x := by
      induction hs with
      | init pn pom => exact createInitialState_x pn pom
      | step s a env hr ha ih => exact gameReducer_x s a env ha ih.1 ih.2
    exact ⟨hx.1, hx.2, isOnBeam_false_iff s.player hx.1,
      isOnBeam_false_iff s.opponent hx.2⟩

/-- Witness for C10: concrete clamped movement and the initial state. -/
theorem movement_clamped_witness :
    (inBeamRange (moveFighter wIdle .left 1).x ∧
      inBeamRange (moveInAir wIdle .left 1).x) ∧
    inBeamRange (createInitialState "A" "B").player.x ∧
    (isOnBeam (createInitialState "A" "B").player = false ↔
      (createInitialState "A" "B").player.state = .Falling) :=
  ⟨movement_clamped_and_positions_reachable.1 wIdle .left 1
      (by with_unfolding_all decide) (by with_unfolding_all decide),
    (movement_clamped_and_positions_reachable.2 (createInitialState "A" "B")
      (Reachable.init "A" "B")).1,
    (movement_clamped_and_positions_reachable.2 (createInitialState "A" "B")
      (Reachable.init "A" "B")).2.2.1⟩

end BeamBrawlers
